import Mathlib

/-!
Verification development for the ha-autogen validation / review / quick-fix
pipeline (directories `validator/`, `reviewer/`, `quickfix/` of the source).

The Python data values flowing through the pipeline (deserialized YAML/JSON)
are modelled by the inductive type `Val`.  Python functions are translated
one-to-one; a function that can raise an exception is modelled in the
`Except PyErr` monad, with the exception class recorded.  External
collaborators (the ruamel YAML parser, difflib fuzzy matching, the injected
async deploy callable) are modelled as explicit parameters, exactly as the
spec describes them as collaborator capabilities.
-/

/-- Exception classes that the modelled code can raise.  `validationError`
stands for a pydantic model-validation failure at construction time. -/
inductive PyErr where
  | attributeError
  | typeError
  | validationError
deriving DecidableEq, Repr

/-- A deserialized YAML/JSON value: the Python values the pipeline walks
(`None`, bools, ints, strings, lists, dicts with string keys). -/
inductive Val where
  | vnull
  | vbool (b : Bool)
  | vint (n : Int)
  | vstr (s : String)
  | vlist (items : List Val)
  | vdict (entries : List (String × Val))
deriving Repr

mutual
def valDecEq : (a b : Val) → Decidable (a = b)
  | .vnull, .vnull => .isTrue rfl
  | .vnull, .vbool _ => .isFalse nofun
  | .vnull, .vint _ => .isFalse nofun
  | .vnull, .vstr _ => .isFalse nofun
  | .vnull, .vlist _ => .isFalse nofun
  | .vnull, .vdict _ => .isFalse nofun
  | .vbool _, .vnull => .isFalse nofun
  | .vbool a, .vbool b =>
    match decEq a b with
    | .isTrue h => .isTrue (by rw [h])
    | .isFalse h => .isFalse (fun he => h (Val.vbool.inj he))
  | .vbool _, .vint _ => .isFalse nofun
  | .vbool _, .vstr _ => .isFalse nofun
  | .vbool _, .vlist _ => .isFalse nofun
  | .vbool _, .vdict _ => .isFalse nofun
  | .vint _, .vnull => .isFalse nofun
  | .vint _, .vbool _ => .isFalse nofun
  | .vint a, .vint b =>
    match decEq a b with
    | .isTrue h => .isTrue (by rw [h])
    | .isFalse h => .isFalse (fun he => h (Val.vint.inj he))
  | .vint _, .vstr _ => .isFalse nofun
  | .vint _, .vlist _ => .isFalse nofun
  | .vint _, .vdict _ => .isFalse nofun
  | .vstr _, .vnull => .isFalse nofun
  | .vstr _, .vbool _ => .isFalse nofun
  | .vstr _, .vint _ => .isFalse nofun
  | .vstr a, .vstr b =>
    match decEq a b with
    | .isTrue h => .isTrue (by rw [h])
    | .isFalse h => .isFalse (fun he => h (Val.vstr.inj he))
  | .vstr _, .vlist _ => .isFalse nofun
  | .vstr _, .vdict _ => .isFalse nofun
  | .vlist _, .vnull => .isFalse nofun
  | .vlist _, .vbool _ => .isFalse nofun
  | .vlist _, .vint _ => .isFalse nofun
  | .vlist _, .vstr _ => .isFalse nofun
  | .vlist a, .vlist b =>
    match valListDecEq a b with
    | .isTrue h => .isTrue (by rw [h])
    | .isFalse h => .isFalse (fun he => h (Val.vlist.inj he))
  | .vlist _, .vdict _ => .isFalse nofun
  | .vdict _, .vnull => .isFalse nofun
  | .vdict _, .vbool _ => .isFalse nofun
  | .vdict _, .vint _ => .isFalse nofun
  | .vdict _, .vstr _ => .isFalse nofun
  | .vdict _, .vlist _ => .isFalse nofun
  | .vdict a, .vdict b =>
    match valEntriesDecEq a b with
    | .isTrue h => .isTrue (by rw [h])
    | .isFalse h => .isFalse (fun he => h (Val.vdict.inj he))

def valListDecEq : (a b : List Val) → Decidable (a = b)
  | [], [] => .isTrue rfl
  | [], _ :: _ => .isFalse nofun
  | _ :: _, [] => .isFalse nofun
  | x :: xs, y :: ys =>
    match valDecEq x y, valListDecEq xs ys with
    | .isTrue h1, .isTrue h2 => .isTrue (by rw [h1, h2])
    | .isFalse h1, _ => .isFalse (fun he => h1 (List.cons.inj he).1)
    | _, .isFalse h2 => .isFalse (fun he => h2 (List.cons.inj he).2)

def valEntriesDecEq : (a b : List (String × Val)) → Decidable (a = b)
  | [], [] => .isTrue rfl
  | [], _ :: _ => .isFalse nofun
  | _ :: _, [] => .isFalse nofun
  | (k1, v1) :: xs, (k2, v2) :: ys =>
    match decEq k1 k2, valDecEq v1 v2, valEntriesDecEq xs ys with
    | .isTrue h0, .isTrue h1, .isTrue h2 => .isTrue (by rw [h0, h1, h2])
    | .isFalse h0, _, _ =>
      .isFalse (fun he => h0 (congrArg Prod.fst (List.cons.inj he).1))
    | _, .isFalse h1, _ =>
      .isFalse (fun he => h1 (congrArg Prod.snd (List.cons.inj he).1))
    | _, _, .isFalse h2 => .isFalse (fun he => h2 (List.cons.inj he).2)
end

instance : DecidableEq Val := valDecEq

/-- `d.get(key)` on a dict: first binding of the key (keys are unique in a
Python dict, so first = only). -/
def dictGet : List (String × Val) → String → Option Val
  | [], _ => none
  | (k, v) :: rest, key => if k = key then some v else dictGet rest key

/-- `d[key] = v` on a dict: replace the value of an existing key in place,
otherwise append the new binding (Python insertion order). -/
def dictSet : List (String × Val) → String → Val → List (String × Val)
  | [], key, v => [(key, v)]
  | (k, w) :: rest, key, v =>
    if k = key then (k, v) :: rest else (k, w) :: dictSet rest key v

/-- Python truthiness of a value. -/
def pyTruthy : Val → Bool
  | .vnull => false
  | .vbool b => b
  | .vint n => n != 0
  | .vstr s => s ≠ ""
  | .vlist l => ¬ l.isEmpty
  | .vdict d => ¬ d.isEmpty

/-- `x or y` in Python: `x` when truthy, else `y`. -/
def pyOr (x y : Val) : Val := if pyTruthy x then x else y

/-- `a.get(key, default)` where `a` must be a dict (anything else has no
`.get` attribute). -/
def pyGetD (a : Val) (key : String) (dflt : Val) : Except PyErr Val :=
  match a with
  | .vdict d => .ok ((dictGet d key).getD dflt)
  | _ => .error .attributeError

mutual
/-- Python `repr` of a value (used by `str` on containers). -/
def pyRepr : Val → String
  | .vnull => "None"
  | .vbool true => "True"
  | .vbool false => "False"
  | .vint n => toString n
  | .vstr s => "\x27" ++ s ++ "\x27"
  | .vlist l => "[" ++ String.intercalate ", " (pyReprList l) ++ "]"
  | .vdict d => "\x7b" ++ String.intercalate ", " (pyReprEntries d) ++ "\x7d"

def pyReprList : List Val → List String
  | [] => []
  | v :: rest => pyRepr v :: pyReprList rest

def pyReprEntries : List (String × Val) → List String
  | [] => []
  | (k, v) :: rest => ("\x27" ++ k ++ "\x27: " ++ pyRepr v) :: pyReprEntries rest
end

/-- Python `str` of a value (identity on strings, `repr`-style elsewhere). -/
def pyStr : Val → String
  | .vstr s => s
  | v => pyRepr v

/-- Python `==` between a value and a string literal: true only for an equal
string (no cross-type equality holds against a `str`). -/
def pyEqStr (v : Val) (s : String) : Bool :=
  match v with
  | .vstr t => t = s
  | _ => false

/-- Does the second character list start with the first one? -/
def charsLead : List Char → List Char → Bool
  | [], _ => true
  | _ :: _, [] => false
  | n :: ns, h :: hs => n = h && charsLead ns hs

/-- Does the second character list contain the first one as a contiguous
run somewhere? -/
def charsSub (needle hay : List Char) : Bool :=
  charsLead needle hay ||
    match hay with
    | [] => false
    | _ :: t => charsSub needle t

/-- Substring test between two strings (Python `needle in hay` on `str`). -/
def strContains (hay needle : String) : Bool :=
  charsSub needle.toList hay.toList

/-- Python `needle in hay` for a string needle: substring test on a string,
membership among the items of a list, membership among the keys of a dict;
`in` on `None`/bool/int raises TypeError. -/
def pyInStr (needle : String) (hay : Val) : Except PyErr Bool :=
  match hay with
  | .vstr s => .ok (strContains s needle)
  | .vlist l => .ok (l.any (fun v => pyEqStr v needle))
  | .vdict d => .ok (d.any (fun kv => kv.1 = needle))
  | _ => .error .typeError

/-- `s.split(".")[0]` for a Python string: the characters before the
first dot (the whole string when there is none). -/
def headSplitDot (s : String) : String :=
  String.mk (s.toList.takeWhile (fun c => c ≠ '.'))

/-- `not yaml_str or not yaml_str.strip()`: empty or whitespace-only text. -/
def pyBlank (s : String) : Bool := s.toList.all Char.isWhitespace

/- ----------------------------------------------------------------------
validator/models.py
---------------------------------------------------------------------- -/

/-- Severity level for validation issues (`ValidationSeverity`). -/
inductive ValidationSeverity where
  | error
  | warning
  | info
deriving DecidableEq, Repr

/-- A single validation finding (`ValidationIssue`). -/
structure ValidationIssue where
  severity : ValidationSeverity
  check_name : String
  message : String
  line : Option Nat := none
  suggestion : Option String := none
deriving DecidableEq, Repr

/-- Aggregated result from the validation pipeline (`ValidationResult`).
The pydantic field type of `yaml_parsed` is `dict[str, Any] | None`; the
constructor-time validation of that type is modelled at the construction
sites (pydantic v2 rejects a non-dict value there). -/
structure ValidationResult where
  valid : Bool := true
  issues : List ValidationIssue := []
  yaml_parsed : Option Val := none
deriving DecidableEq, Repr

/- ----------------------------------------------------------------------
validator/yaml_syntax.py
---------------------------------------------------------------------- -/

/-- Outcome of `ruamel.yaml.YAML().load` on the input text, modelled
abstractly (the YAML parser is an external collaborator).  `perr` carries
the error message and the optional 0-indexed `problem_mark` line; `pok`
carries the loaded value (`Val.vnull` for a null / empty document). -/
inductive ParseOutcome where
  | perr (message : String) (problem_mark_line : Option Nat)
  | pok (value : Val)

/-- `check_yaml_syntax(yaml_str)` from `validator/yaml_syntax.py`, with the
parse outcome passed explicitly.  On a parse success with a non-null value
the code computes `dict(parsed) if hasattr(parsed, "items") else parsed`
and builds `ValidationResult(valid=True, yaml_parsed=parsed_dict)`; since
`ValidationResult.yaml_parsed` is typed `dict[str, Any] | None`, pydantic
accepts a mapping and raises a validation error for a list/scalar. -/
def yaml_syntax_check (yaml_str : String) (parsed : ParseOutcome) :
    Except PyErr ValidationResult :=
  if pyBlank yaml_str then
    .ok { valid := false,
          issues := [{ severity := .error, check_name := "yaml_syntax",
                       message := "Empty YAML output" }] }
  else
    match parsed with
    | .perr msg mark =>
      .ok { valid := false,
            issues := [{ severity := .error, check_name := "yaml_syntax",
                         message := msg, line := mark.map (· + 1) }] }
    | .pok .vnull =>
      .ok { valid := false,
            issues := [{ severity := .error, check_name := "yaml_syntax",
                         message := "YAML parsed to empty/null value" }] }
    | .pok (.vdict d) =>
      .ok { valid := true, issues := [], yaml_parsed := some (.vdict d) }
    | .pok _ => .error .validationError

/- ----------------------------------------------------------------------
validator/entity_refs.py
---------------------------------------------------------------------- -/

/-- A character allowed in the tail of an entity-id component:
`[a-z0-9_]`. -/
def idChar (c : Char) : Bool :=
  ('a' ≤ c && c ≤ 'z') || ('0' ≤ c && c ≤ '9') || c = '_'

/-- Split a character list on the dot character (Python `s.split(".")`,
which always yields at least one part). -/
def splitDot : List Char → List (List Char)
  | [] => [[]]
  | c :: rest =>
    if c = '.' then [] :: splitDot rest
    else
      match splitDot rest with
      | h :: t => (c :: h) :: t
      | [] => [[c]]

/-- The body of `ENTITY_ID_RE`: `[a-z][a-z0-9_]*\.[a-z0-9_]+` matched
against the whole character list (exactly one dot, a lowercase-letter
start, `[a-z0-9_]` elsewhere, non-empty object part). -/
def entityIdCore (cs : List Char) : Bool :=
  match splitDot cs with
  | [d, o] =>
    (match d with
     | c :: rest => ('a' ≤ c && c ≤ 'z') && rest.all idChar
     | [] => false)
    && !o.isEmpty && o.all idChar
  | _ => false

/-- `ENTITY_ID_RE.match(s)`: the pattern is anchored with `^ ... $`, and a
Python `$` also matches just before one trailing newline. -/
def entityIdMatch (s : String) : Bool :=
  entityIdCore s.toList ||
    (s.toList.getLast? == some '\n' && entityIdCore s.toList.dropLast)

/-- Python path concatenation `f"{path}.{key}" if path else key`. -/
def childPath (path key : String) : String :=
  if path = "" then key else path ++ "." ++ key

/-- The special-case scan of a list value under an `entities` key: string
items matching the pattern are collected; dict items with an `entity` key
whose value is a matching string are collected. -/
def entitiesScan (items : List Val) (cur : String) : List (String × String) :=
  items.foldr
    (fun item acc =>
      (match item with
       | .vstr s => if entityIdMatch s then [(s, cur)] else []
       | .vdict dm =>
         match dictGet dm "entity" with
         | some (.vstr s) => if entityIdMatch s then [(s, cur)] else []
         | _ => []
       | _ => []) ++ acc) []

mutual
/-- `_extract_entity_ids(obj, path)` from `validator/entity_refs.py`:
recursively walk a parsed YAML value and collect likely `(entity_id, path)`
pairs.  A string or list value under `entity_id`/`entity` is scanned but
not recursed into; a value under `entities` is scanned (strings and
`{"entity": ...}` maps inside a list) and also recursed into; every other
dict value and every list item is recursed into. -/
def extract_entity_ids (obj : Val) (path : String) : List (String × String) :=
  match obj with
  | .vdict d => extractEntries d path
  | .vlist l => extractItems l path 0
  | _ => []

def extractEntries (d : List (String × Val)) (path : String) :
    List (String × String) :=
  match d with
  | [] => []
  | (key, value) :: rest =>
    (if key = "entity_id" ∨ key = "entity" then
      match value with
      | .vstr s => if entityIdMatch s then [(s, childPath path key)] else []
      | .vlist items =>
        items.foldr
          (fun item acc =>
            (match item with
             | .vstr s =>
               if entityIdMatch s then [(s, childPath path key)] else []
             | _ => []) ++ acc) []
      | _ => []
    else if key = "entities" then
      (match value with
       | .vlist items => entitiesScan items (childPath path key)
       | _ => []) ++ extract_entity_ids value (childPath path key)
    else
      extract_entity_ids value (childPath path key))
    ++ extractEntries rest path

def extractItems (l : List Val) (path : String) (i : Nat) :
    List (String × String) :=
  match l with
  | [] => []
  | item :: rest =>
    extract_entity_ids item (path ++ "[" ++ toString i ++ "]")
      ++ extractItems rest path (i + 1)
end

/-- `check_entity_refs(parsed_yaml, known_entity_ids)` from
`validator/entity_refs.py`.  The difflib fuzzy matcher
(`difflib.get_close_matches(eid, list(known), n=1, cutoff=0.6)`) is an
external collaborator and is passed in as `fuzzy`. -/
def check_entity_refs (fuzzy : String → Option String) (parsed_yaml : Val)
    (known : List String) : List ValidationIssue :=
  (extract_entity_ids parsed_yaml "").foldr
    (fun ep acc =>
      (if ep.1 ∈ known then []
       else
         [{ severity := .warning, check_name := "entity_refs",
            message := "Unknown entity_id \x27" ++ ep.1 ++ "\x27 at " ++ ep.2,
            suggestion :=
              (fuzzy ep.1).map (fun m => "Did you mean: " ++ m ++ "?") }])
      ++ acc) []

/- ----------------------------------------------------------------------
reviewer/models.py
---------------------------------------------------------------------- -/

/-- `FindingSeverity` string enum. -/
inductive FindingSeverity where
  | critical
  | warning
  | suggestion
  | info
deriving DecidableEq, Repr

/-- `FindingCategory` string enum. -/
inductive FindingCategory where
  | trigger_efficiency
  | missing_guards
  | deprecated_patterns
  | redundancy
  | security
  | error_resilience
  | unused_entities
  | inconsistent_cards
  | missing_area_coverage
  | card_type_recommendation
  | layout_optimization
deriving DecidableEq, Repr

/-- The `.value` string of a `FindingCategory` member. -/
def FindingCategory.value : FindingCategory → String
  | .trigger_efficiency => "trigger_efficiency"
  | .missing_guards => "missing_guards"
  | .deprecated_patterns => "deprecated_patterns"
  | .redundancy => "redundancy"
  | .security => "security"
  | .error_resilience => "error_resilience"
  | .unused_entities => "unused_entities"
  | .inconsistent_cards => "inconsistent_cards"
  | .missing_area_coverage => "missing_area_coverage"
  | .card_type_recommendation => "card_type_recommendation"
  | .layout_optimization => "layout_optimization"

/-- `ReviewFinding` from `reviewer/models.py`.  Note: the source model
declares exactly these fields — in particular it declares **no**
`finding_id` field (pydantic v2 with the default `extra="ignore"` config
silently drops a `finding_id=` constructor argument and raises
AttributeError when the attribute is read). -/
structure ReviewFinding where
  severity : FindingSeverity
  category : FindingCategory
  automation_id : String := ""
  automation_alias : String := ""
  title : String
  description : String
  current_yaml : Option String := none
  suggested_yaml : Option String := none
deriving DecidableEq, Repr

/-- Reading `finding.finding_id`: `ReviewFinding` has no such pydantic
field, so the attribute access raises AttributeError. -/
def ReviewFinding.finding_id (_ : ReviewFinding) : Except PyErr String :=
  .error .attributeError

/- ----------------------------------------------------------------------
reviewer/automation_rules.py
---------------------------------------------------------------------- -/

/-- pydantic v2 validation of a `str`-typed field: only an actual string
is accepted (no int/bool/None coercion in lax mode). -/
def asPyStr : Val → Except PyErr String
  | .vstr s => .ok s
  | _ => .error .validationError

/-- `automation.get(k1) or automation.get(k2) or []`. -/
def rawField (ad : List (String × Val)) (k1 k2 : String) : Val :=
  pyOr ((dictGet ad k1).getD .vnull)
    (pyOr ((dictGet ad k2).getD .vnull) (.vlist []))

/-- The entries of a dict value, `none` otherwise. -/
def asDictEntries : Val → Option (List (String × Val))
  | .vdict d => some d
  | _ => none

/-- `_get_trigger_list(automation)`: normalize `trigger`/`triggers` to a
list of dicts (a bare dict is wrapped; non-dict list items are dropped;
any other shape yields `[]`). -/
def get_trigger_list (a : Val) : Except PyErr (List (List (String × Val))) :=
  match a with
  | .vdict ad =>
    .ok (match rawField ad "trigger" "triggers" with
         | .vdict d => [d]
         | .vlist l => l.filterMap asDictEntries
         | _ => [])
  | _ => .error .attributeError

/-- `_get_condition_list(automation)`: normalize `condition`/`conditions`
to a list (a bare dict is wrapped; a list is copied as is, non-dict items
included; any other shape yields `[]`). -/
def get_condition_list (a : Val) : Except PyErr (List Val) :=
  match a with
  | .vdict ad =>
    .ok (match rawField ad "condition" "conditions" with
         | .vdict d => [.vdict d]
         | .vlist l => l
         | _ => [])
  | _ => .error .attributeError

/-- `_get_action_list(automation)`: like `_get_trigger_list` for
`action`/`actions`. -/
def get_action_list (a : Val) : Except PyErr (List (List (String × Val))) :=
  match a with
  | .vdict ad =>
    .ok (match rawField ad "action" "actions" with
         | .vdict d => [d]
         | .vlist l => l.filterMap asDictEntries
         | _ => [])
  | _ => .error .attributeError

/-- `_auto_id(automation)` = `automation.get("id", "unknown")`, composed
with the pydantic validation that `ReviewFinding.automation_id` is a
string (evaluated where a finding is constructed). -/
def pyAutoId (a : Val) : Except PyErr String :=
  match a with
  | .vdict ad => asPyStr ((dictGet ad "id").getD (.vstr "unknown"))
  | _ => .error .attributeError

/-- `_auto_alias(automation)` = `automation.get("alias", "Unnamed
automation")`, composed with pydantic string validation as above. -/
def pyAutoAlias (a : Val) : Except PyErr String :=
  match a with
  | .vdict ad => asPyStr ((dictGet ad "alias").getD (.vstr "Unnamed automation"))
  | _ => .error .attributeError

/-- The trigger condition of `check_trigger_efficiency`: platform is
`time_pattern` and (`seconds` is present-and-not-None, or `minutes` is
present and its `str()` starts with "/"). -/
def timePatternFlag (t : List (String × Val)) : Bool :=
  pyEqStr ((dictGet t "platform").getD (.vstr "")) "time_pattern" &&
    (((dictGet t "seconds").getD .vnull) != Val.vnull ||
      (((dictGet t "minutes").getD .vnull) != Val.vnull &&
        charsLead ['/'] (pyStr ((dictGet t "minutes").getD .vnull)).toList))

def trigLoop (a : Val) : List (List (String × Val)) →
    Except PyErr (List ReviewFinding)
  | [] => .ok []
  | t :: rest => do
    let here ←
      if timePatternFlag t then do
        let aid ← pyAutoId a
        let al ← pyAutoAlias a
        pure [{ severity := .warning, category := .trigger_efficiency,
                automation_id := aid, automation_alias := al,
                title := "Frequent time_pattern trigger",
                description := "This automation uses a time_pattern trigger that fires frequently. Consider using a state-based trigger or increasing the interval." : ReviewFinding }]
      else pure []
    let more ← trigLoop a rest
    pure (here ++ more)

/-- `check_trigger_efficiency(automation)`. -/
def check_trigger_efficiency (a : Val) : Except PyErr (List ReviewFinding) := do
  let ts ← get_trigger_list a
  trigLoop a ts

/-- `check_missing_guards(automation)`. -/
def check_missing_guards (a : Val) : Except PyErr (List ReviewFinding) := do
  let ts ← get_trigger_list a
  let cs ← get_condition_list a
  if ¬ ts.isEmpty ∧ cs.isEmpty then do
    let aid ← pyAutoId a
    let al ← pyAutoAlias a
    pure [{ severity := .suggestion, category := .missing_guards,
            automation_id := aid, automation_alias := al,
            title := "No conditions defined",
            description := "This automation has triggers but no conditions. Consider adding conditions to prevent unintended activations." : ReviewFinding }]
  else pure []

/-- `action.get(key, {}) or {}` followed by attribute access on the
result: a non-dict truthy value has no `.get` and raises AttributeError. -/
def subDict (act : List (String × Val)) (key : String) :
    Except PyErr (List (String × Val)) :=
  match pyOr ((dictGet act key).getD (.vdict [])) (.vdict []) with
  | .vdict td => .ok td
  | _ => .error .attributeError

/-- `if isinstance(x, str): x = [x]`. -/
def wrapStr : Val → Val
  | .vstr s => .vlist [.vstr s]
  | v => v

/-- The items appended by `list.extend(arg)`: a list contributes its
items, a dict contributes its keys, a non-iterable raises TypeError
(a string argument was already wrapped by the caller). -/
def extendArg : Val → Except PyErr (List Val)
  | .vlist l => .ok l
  | .vdict d => .ok (d.map (fun kv => Val.vstr kv.1))
  | _ => .error .typeError

/-- Sensitive domains, in sorted order (`sorted(...)` of the source set).
The source set is `{"lock", "alarm_control_panel", "cover", "camera",
"siren"}`. -/
def sensSorted : List String :=
  ["alarm_control_panel", "camera", "cover", "lock", "siren"]

/-- The loop `for eid in entity_ids: if "." in eid:
domains_involved.add(eid.split(".")[0])`; the membership test raises
TypeError on an int-like item and the split raises AttributeError on a
non-string container item that passed the test. -/
def domainsLoop : List Val → List String → Except PyErr (List String)
  | [], acc => .ok acc
  | eid :: rest, acc => do
    let hasD ← pyInStr "." eid
    if hasD then
      match eid with
      | .vstr s => domainsLoop rest (acc ++ [headSplitDot s])
      | _ => .error .attributeError
    else domainsLoop rest acc

/-- The per-action body of `check_security_concerns`.  Returns the
findings for this action and the action dict after the (in-place)
`entity_ids.extend(data_entity_ids)`: when `target["entity_id"]` is a
list, `entity_ids` aliases it and the extend mutates the record. -/
def securityAction (condsEmpty : Bool) (a : Val) (act : List (String × Val)) :
    Except PyErr (List ReviewFinding × List (String × Val)) := do
  let serviceV := (dictGet act "service").getD (.vstr "")
  let hasDot ← pyInStr "." serviceV
  let domain ←
    if hasDot then
      match serviceV with
      | .vstr s => pure (headSplitDot s)
      | _ => .error .attributeError
    else pure ""
  let td ← subDict act "target"
  let eidsRaw := (dictGet td "entity_id").getD (.vlist [])
  let dd ← subDict act "data"
  let dataRaw := (dictGet dd "entity_id").getD (.vlist [])
  let base ←
    match wrapStr eidsRaw with
    | .vlist l => pure l
    | _ => .error .attributeError
  let dataIds ← extendArg (wrapStr dataRaw)
  let eids := base ++ dataIds
  let act' :=
    match dictGet td "entity_id" with
    | some (.vlist _) =>
      dictSet act "target" (.vdict (dictSet td "entity_id" (.vlist eids)))
    | _ => act
  let domains ← domainsLoop eids (if domain ≠ "" then [domain] else [])
  let found := sensSorted.filter (fun d => d ∈ domains)
  if found ≠ [] then do
    let joined := String.intercalate ", " found
    let aid ← pyAutoId a
    let al ← pyAutoAlias a
    pure ([{ severity := if condsEmpty then .critical else .warning,
             category := .security,
             automation_id := aid, automation_alias := al,
             title := "Sensitive domain without adequate guards: " ++ joined,
             description := "This automation controls sensitive domain(s): " ++ joined ++ ". " ++
               (if condsEmpty then
                 "It has NO conditions, meaning the action runs unconditionally."
               else
                 "Verify that conditions are sufficient to prevent unauthorized activation.") : ReviewFinding }],
          act')
  else pure ([], act')

def securityList (condsEmpty : Bool) (a : Val) : List Val →
    Except PyErr (List ReviewFinding × List Val)
  | [] => .ok ([], [])
  | v :: rest => do
    match v with
    | .vdict actd => do
      let (fs, act') ← securityAction condsEmpty a actd
      let (fs2, rest') ← securityList condsEmpty a rest
      pure (fs ++ fs2, .vdict act' :: rest')
    | _ => do
      let (fs2, rest') ← securityList condsEmpty a rest
      pure (fs2, v :: rest')

/-- `check_security_concerns(automation)`.  Besides the findings it
returns the automation record as it stands after the call, reflecting the
in-place `entity_ids.extend(data_entity_ids)` that the source performs on
the aliased `target["entity_id"]` list of every processed action. -/
def check_security_concerns (a : Val) :
    Except PyErr (List ReviewFinding × Val) := do
  let cs ← get_condition_list a
  let condsEmpty := cs.isEmpty
  match a with
  | .vdict ad =>
    let srcKey :=
      if pyTruthy ((dictGet ad "action").getD .vnull) then some "action"
      else if pyTruthy ((dictGet ad "actions").getD .vnull) then some "actions"
      else none
    match rawField ad "action" "actions" with
    | .vdict actd => do
      let (fs, act') ← securityAction condsEmpty a actd
      let ad' := match srcKey with
        | some k => dictSet ad k (.vdict act')
        | none => ad
      pure (fs, .vdict ad')
    | .vlist l => do
      let (fs, l') ← securityList condsEmpty a l
      let ad' := match srcKey with
        | some k => dictSet ad k (.vlist l')
        | none => ad
      pure (fs, .vdict ad')
    | _ => pure ([], a)
  | _ => .error .attributeError

/-- `entity_ids + data_entity_ids` after the two `isinstance(str)` wraps:
both operands must now be lists, else TypeError. -/
def pyConcatIds (x y : Val) : Except PyErr (List Val) :=
  match wrapStr x, wrapStr y with
  | .vlist l1, .vlist l2 => .ok (l1 ++ l2)
  | _, _ => .error .typeError

/-- The per-action body of `check_deprecated_patterns`. -/
def deprecatedAction (a : Val) (act : List (String × Val)) :
    Except PyErr (List ReviewFinding) := do
  let serviceV := (dictGet act "service").getD (.vstr "")
  if pyEqStr serviceV "homeassistant.turn_on" ∨
      pyEqStr serviceV "homeassistant.turn_off" then do
    let s := pyStr serviceV
    let verb := if strContains s "turn_on" then "turn_on" else "turn_off"
    let td ← subDict act "target"
    let eidsRaw := (dictGet td "entity_id").getD (.vlist [])
    let dd ← subDict act "data"
    let dataRaw := (dictGet dd "entity_id").getD (.vlist [])
    let allIds ← pyConcatIds eidsRaw dataRaw
    let suggestion ←
      match allIds with
      | [] => pure ""
      | first :: _ => do
        let hasD ← pyInStr "." first
        if hasD then
          match first with
          | .vstr fs =>
            let domain := headSplitDot fs
            pure (if domain ≠ "" then
                " Use `" ++ domain ++ "." ++ verb ++ "` instead."
              else "")
          | _ => .error .attributeError
        else pure ""
    let aid ← pyAutoId a
    let al ← pyAutoAlias a
    pure [{ severity := .suggestion, category := .deprecated_patterns,
            automation_id := aid, automation_alias := al,
            title := "Generic " ++ s ++ " call",
            description := "`" ++ s ++ "` is a generic call. Domain-specific services are preferred for clarity and reliability." ++ suggestion : ReviewFinding }]
  else pure []

def deprecatedLoop (a : Val) : List (List (String × Val)) →
    Except PyErr (List ReviewFinding)
  | [] => .ok []
  | act :: rest => do
    let here ← deprecatedAction a act
    let more ← deprecatedLoop a rest
    pure (here ++ more)

/-- `check_deprecated_patterns(automation)`. -/
def check_deprecated_patterns (a : Val) : Except PyErr (List ReviewFinding) := do
  let acts ← get_action_list a
  deprecatedLoop a acts

/-- `run_all_rules(automation)`: the four deterministic checks in order.
The result pairs the concatenated findings with the automation record as
it stands after the run (`check_security_concerns` may have mutated it in
place; `check_deprecated_patterns` then observes the mutated record). -/
def run_all_rules (a : Val) : Except PyErr (List ReviewFinding × Val) := do
  let f1 ← check_trigger_efficiency a
  let f2 ← check_missing_guards a
  let (f3, a') ← check_security_concerns a
  let f4 ← check_deprecated_patterns a'
  pure (f1 ++ f2 ++ f3 ++ f4, a')

/- ----------------------------------------------------------------------
validator/dashboard_schema.py
---------------------------------------------------------------------- -/

/-- A value found by `dictGet` is structurally smaller than the dict
(used for the termination of the recursive card walks). -/
theorem dictGet_sizeOf {k : String} {v : Val} :
    ∀ {d : List (String × Val)}, dictGet d k = some v → sizeOf v < sizeOf d
  | [], h => by simp [dictGet] at h
  | (k0, v0) :: rest, h => by
    by_cases hk : k0 = k
    · rw [dictGet, if_pos hk] at h
      cases h
      simp
      omega
    · rw [dictGet, if_neg hk] at h
      have := dictGet_sizeOf (d := rest) h
      simp
      omega

/-- `VALID_CARD_TYPES` from `validator/dashboard_schema.py`. -/
def VALID_CARD_TYPES : List String :=
  ["entities", "gauge", "glance", "history-graph", "horizontal-stack",
   "vertical-stack", "media-control", "thermostat", "weather-forecast",
   "picture-entity", "button", "light", "markdown", "map", "conditional",
   "grid", "statistics-graph", "logbook", "calendar",
   "energy-date-selection", "energy-usage-graph", "alarm-panel",
   "humidifier", "sensor", "tile", "area", "heading", "sections"]

/-- `CARD_REQUIRED_FIELDS` from `validator/dashboard_schema.py`. -/
def CARD_REQUIRED_FIELDS : List (String × List String) :=
  [("gauge", ["entity"]), ("thermostat", ["entity"]),
   ("media-control", ["entity"]), ("weather-forecast", ["entity"]),
   ("picture-entity", ["entity"]), ("button", ["entity"]),
   ("light", ["entity"]), ("humidifier", ["entity"]),
   ("sensor", ["entity"]), ("tile", ["entity"]), ("alarm-panel", ["entity"])]

/-- The per-view loop of `check_dashboard_schema`. -/
def schemaViewIssues : List Val → Nat → List ValidationIssue
  | [], _ => []
  | view :: rest, i =>
    (match view with
     | .vdict vd =>
       (match dictGet vd "cards" with
        | some .vnull | none => []
        | some (.vlist _) => []
        | some _ =>
          [{ severity := .warning, check_name := "dashboard_schema",
             message := "View " ++ toString i ++ " \x27cards\x27 should be a list." }])
     | _ =>
       [{ severity := .error, check_name := "dashboard_schema",
          message := "View " ++ toString i ++ " is not a dict." }])
    ++ schemaViewIssues rest (i + 1)

/-- `check_dashboard_schema(parsed)` from `validator/dashboard_schema.py`. -/
def check_dashboard_schema (parsed : Val) : List ValidationIssue :=
  match parsed with
  | .vdict d =>
    (match dictGet d "views" with
     | none | some .vnull =>
       [{ severity := .error, check_name := "dashboard_schema",
          message := "Dashboard config is missing the required \x27views\x27 key." }]
     | some (.vlist views) =>
       (if views.length = 0 then
         [{ severity := .warning, check_name := "dashboard_schema",
            message := "Dashboard has no views." }]
       else []) ++ schemaViewIssues views 0
     | some _ =>
       [{ severity := .error, check_name := "dashboard_schema",
          message := "\x27views\x27 must be a list." }])
  | _ =>
    [{ severity := .error, check_name := "dashboard_schema",
       message := "Dashboard config must be a dict with a \x27views\x27 key." }]

/-- `card_type in ("horizontal-stack", "vertical-stack", "grid")`. -/
def isStackType3 (ct : Val) : Bool :=
  pyEqStr ct "horizontal-stack" || pyEqStr ct "vertical-stack" ||
    pyEqStr ct "grid"

/-- `_check_cards_recursive(cards, location)` from
`validator/dashboard_schema.py`, with the `enumerate` index made explicit.
Non-dict cards are skipped; a card with a falsy `type` gets a warning and
is not checked further.  For a truthy `type`, `card_type not in
VALID_CARD_TYPES` hashes the value against a set: a string is looked up,
an int/bool/None is hashable and simply not in the set (warning), but an
unhashable list- or dict-valued `type` raises TypeError, which propagates
out of the walk.  Unknown types and missing required fields get warnings;
`horizontal-stack`/`vertical-stack`/`grid` cards recurse into their
`cards` list when it is a list. -/
def cardsRec (cards : List Val) (location : String) (ci : Nat) :
    Except PyErr (List ValidationIssue) :=
  match cards with
  | [] => .ok []
  | card :: rest =>
    match card with
    | .vdict cd =>
      let cloc := location ++ " card " ++ toString ci
      let ct := (dictGet cd "type").getD (.vstr "")
      if ¬ pyTruthy ct then do
        let more ← cardsRec rest location (ci + 1)
        pure ([{ severity := .warning, check_name := "card_type",
                 message := cloc ++ ": card is missing \x27type\x27 field." }]
          ++ more)
      else do
        let unknownIssues ←
          (match ct with
           | .vstr t =>
             pure (if t ∈ VALID_CARD_TYPES then []
               else
                 [{ severity := .warning, check_name := "card_type",
                    message := cloc ++ ": unknown card type \x27" ++ t ++ "\x27.",
                    suggestion := some "Valid types include: entities, gauge, glance, history-graph, thermostat, media-control" }])
           | .vlist _ => .error .typeError
           | .vdict _ => .error .typeError
           | _ =>
             pure [{ severity := .warning, check_name := "card_type",
                     message := cloc ++ ": unknown card type \x27" ++ pyStr ct ++ "\x27.",
                     suggestion := some "Valid types include: entities, gauge, glance, history-graph, thermostat, media-control" }] :
            Except PyErr (List ValidationIssue))
        let requiredIssues :=
          match ct with
          | .vstr t =>
            ((dictGet (CARD_REQUIRED_FIELDS.map (fun p => (p.1, Val.vlist (p.2.map Val.vstr)))) t).getD (.vlist []) |> fun req =>
              match req with
              | .vlist fields =>
                fields.foldr (fun fv acc =>
                  (match fv with
                   | .vstr field =>
                     if (dictGet cd field).isSome then []
                     else
                       [{ severity := .warning, check_name := "card_type",
                          message := cloc ++ ": \x27" ++ t ++ "\x27 card is missing required field \x27" ++ field ++ "\x27." }]
                   | _ => []) ++ acc) []
              | _ => [])
          | _ => []
        let subIssues ←
          (if isStackType3 ct then
            match h : dictGet cd "cards" with
            | some (.vlist sub) => cardsRec sub cloc 0
            | some _ => pure []
            | none => pure []
          else pure [])
        let more ← cardsRec rest location (ci + 1)
        pure (unknownIssues ++ requiredIssues ++ subIssues ++ more)
    | _ => cardsRec rest location (ci + 1)
termination_by sizeOf cards
decreasing_by
  all_goals simp_wf
  all_goals try omega
  all_goals (have h1 := dictGet_sizeOf h; simp at h1; omega)

/-- The per-view loop of `check_card_types`. -/
def cardViewLoop : List Val → Nat → Except PyErr (List ValidationIssue)
  | [], _ => .ok []
  | view :: rest, vi => do
    let here ←
      match view with
      | .vdict vd =>
        (match (dictGet vd "cards").getD (.vlist []) with
         | .vlist cards => cardsRec cards ("view " ++ toString vi) 0
         | _ => pure [])
      | _ => pure []
    let more ← cardViewLoop rest (vi + 1)
    pure (here ++ more)

/-- `check_card_types(parsed)` from `validator/dashboard_schema.py`.  A
TypeError raised inside the recursive card walk (unhashable card `type`)
propagates out of this check. -/
def check_card_types (parsed : Val) : Except PyErr (List ValidationIssue) :=
  match parsed with
  | .vdict d =>
    (match (dictGet d "views").getD (.vlist []) with
     | .vlist views => cardViewLoop views 0
     | _ => .ok [])
  | _ => .ok []

/- ----------------------------------------------------------------------
validator/pipeline.py
---------------------------------------------------------------------- -/

/-- `validate_dashboard(yaml_str, known_entity_ids)` from
`validator/pipeline.py`.  The YAML parse outcome and the difflib fuzzy
matcher are the external collaborators, passed explicitly.
Order: syntax → schema (short-circuit on any Error) → card types →
entity refs. -/
def validate_dashboard (yaml_str : String) (parsed : ParseOutcome)
    (fuzzy : String → Option String) (known : List String) :
    Except PyErr ValidationResult := do
  let result ← yaml_syntax_check yaml_str parsed
  match result.valid, result.yaml_parsed with
  | false, _ => pure result
  | true, none => pure result
  | true, some doc =>
    let schema_issues := check_dashboard_schema doc
    let issues1 := result.issues ++ schema_issues
    if schema_issues.any (fun i => i.severity = .error) then
      pure { result with valid := false, issues := issues1 }
    else
      let card_issues ← check_card_types doc
      let entity_issues := check_entity_refs fuzzy doc known
      pure { result with issues := issues1 ++ card_issues ++ entity_issues }

/- ----------------------------------------------------------------------
reviewer/dashboard_rules.py
---------------------------------------------------------------------- -/

/-- The `entities` scan of `_collect_card_entities`: iterate
`card.get("entities", [])`; a string item is appended as is, a dict item
with an `entity` key contributes its `entity` value.  Iterating a string
yields its characters (each a string, so each is appended); iterating a
dict yields its keys; iterating `None`/bool/int raises TypeError. -/
def entitiesPairs (v : Val) (ct : Val) : Except PyErr (List (Val × Val)) :=
  match v with
  | .vlist items =>
    .ok (items.foldr
      (fun ent acc =>
        (match ent with
         | .vstr _ => [(ent, ct)]
         | .vdict ed =>
           match dictGet ed "entity" with
           | some e => [(e, ct)]
           | none => []
         | _ => []) ++ acc) [])
  | .vstr s => .ok (s.toList.map (fun c => (Val.vstr c.toString, ct)))
  | .vdict ed => .ok (ed.map (fun kv => (Val.vstr kv.1, ct)))
  | _ => .error .typeError

mutual
/-- `_collect_card_entities(cards)` from `reviewer/dashboard_rules.py`:
recursively collect `(entity, card_type)` pairs.  Only
`horizontal-stack`/`vertical-stack` cards are flattened into their nested
`cards` list (note: `grid` is *not* in this tuple, unlike the card-type
check of `validator/dashboard_schema.py`).  Iterating a non-list `cards`
value: a non-empty string or dict yields non-dict items whose `.get`
raises AttributeError at the first iteration, an empty one yields nothing,
and `None`/bool/int raise TypeError. -/
def collect_card_entities (cards : Val) : Except PyErr (List (Val × Val)) :=
  match cards with
  | .vlist l => collectCards l
  | .vstr s => if s = "" then .ok [] else .error .attributeError
  | .vdict d => if d.isEmpty then .ok [] else .error .attributeError
  | _ => .error .typeError
termination_by sizeOf cards

def collectCards (l : List Val) : Except PyErr (List (Val × Val)) :=
  match l with
  | [] => .ok []
  | card :: rest =>
    match card with
    | .vdict cd =>
      let ct := (dictGet cd "type").getD (.vstr "")
      if pyEqStr ct "horizontal-stack" || pyEqStr ct "vertical-stack" then
        match h : dictGet cd "cards" with
        | some nested => do
          let sub ← collect_card_entities nested
          let more ← collectCards rest
          pure (sub ++ more)
        | none => do
          let more ← collectCards rest
          pure more
      else do
        let entity := (dictGet cd "entity").getD .vnull
        let own1 := if pyTruthy entity then [(entity, ct)] else []
        let own2 ← entitiesPairs ((dictGet cd "entities").getD (.vlist [])) ct
        let more ← collectCards rest
        pure (own1 ++ own2 ++ more)
    | _ => .error .attributeError
termination_by sizeOf l
decreasing_by
  all_goals simp_wf
  all_goals try omega
  all_goals (have h1 := dictGet_sizeOf h; simp at h1; omega)
end

/- ----------------------------------------------------------------------
reviewer/engine.py — _merge_findings
---------------------------------------------------------------------- -/

/-- The dedup key `(f.automation_id, f.category.value, f.title[:30])`. -/
def findingKey (f : ReviewFinding) : String × String × String :=
  (f.automation_id, f.category.value, f.title.take 30)

/-- The first loop of `_merge_findings`: every rule-based finding is
appended and its key recorded in `seen`. -/
def mergeRuleLoop : List ReviewFinding →
    List (String × String × String) × List ReviewFinding →
    List (String × String × String) × List ReviewFinding
  | [], acc => acc
  | f :: fs, (seen, merged) =>
    mergeRuleLoop fs (seen ++ [findingKey f], merged ++ [f])

/-- The second loop of `_merge_findings`: an LLM finding is appended (and
its key recorded) only when its key is not in `seen`. -/
def mergeLLMLoop : List ReviewFinding →
    List (String × String × String) × List ReviewFinding →
    List (String × String × String) × List ReviewFinding
  | [], acc => acc
  | f :: fs, (seen, merged) =>
    if findingKey f ∈ seen then mergeLLMLoop fs (seen, merged)
    else mergeLLMLoop fs (seen ++ [findingKey f], merged ++ [f])

/-- `_merge_findings(rule_findings, llm_findings)` from
`reviewer/engine.py` (the `seen` set is modelled as a list used only
through membership). -/
def merge_findings (rule_findings llm_findings : List ReviewFinding) :
    List ReviewFinding :=
  (mergeLLMLoop llm_findings (mergeRuleLoop rule_findings ([], []))).2

/-- Spec-side description of the LLM pass (spec §4.8: "Then iterate LLM
findings, adding only those whose dedup key was not already seen"),
starting from a given set of already-seen keys. -/
def llmKeepSpec (seen : List (String × String × String)) :
    List ReviewFinding → List ReviewFinding
  | [] => []
  | f :: fs =>
    if findingKey f ∈ seen then llmKeepSpec seen fs
    else f :: llmKeepSpec (seen ++ [findingKey f]) fs

/- ----------------------------------------------------------------------
quickfix/classifier.py
---------------------------------------------------------------------- -/

/-- `SENSITIVE_DOMAINS` (a set in the source; used only through
membership and iteration whose order does not affect any result). -/
def SENSITIVE_DOMAINS : List String :=
  ["lock", "alarm_control_panel", "cover", "camera", "siren"]

/-- `FixClassification` string enum. -/
inductive FixClassification where
  | QUICK
  | GUIDED
deriving DecidableEq, Repr

/-- `EnrichedFinding` from `quickfix/classifier.py`. -/
structure EnrichedFinding where
  finding : ReviewFinding
  fix_type : FixClassification
  fix_yaml : Option String := none
  requires_confirmation : Bool := false
  fix_description : String := ""
deriving DecidableEq, Repr

/-- `QUICK_FIX_CATEGORIES`. -/
def QUICK_FIX_CATEGORIES : List FindingCategory :=
  [.deprecated_patterns, .card_type_recommendation, .inconsistent_cards]

/-- `GUIDED_FIX_CATEGORIES`. -/
def GUIDED_FIX_CATEGORIES : List FindingCategory :=
  [.security, .redundancy, .error_resilience, .layout_optimization,
   .missing_area_coverage, .unused_entities]

/-- `service.split(".")[0] in SENSITIVE_DOMAINS` for one action of the
sensitivity check (the unguarded `.split` raises on a non-string). -/
def sensService (act : List (String × Val)) : Except PyErr Bool :=
  match (dictGet act "service").getD (.vstr "") with
  | .vstr s => .ok (headSplitDot s ∈ SENSITIVE_DOMAINS)
  | _ => .error .attributeError

/-- The target/data entity-id scan of the sensitivity check: collect
`target.entity_id` and `data.entity_id` (scalar or list), and test
whether any string element has a sensitive domain prefix. -/
def sensEids (act : List (String × Val)) : Except PyErr Bool := do
  let td ← subDict act "target"
  let eidsRaw := (dictGet td "entity_id").getD (.vlist [])
  let dd ← subDict act "data"
  let dataRaw := (dictGet dd "entity_id").getD (.vlist [])
  let allIds ← pyConcatIds eidsRaw dataRaw
  pure (allIds.any (fun eid =>
    match eid with
    | .vstr s => headSplitDot s ∈ SENSITIVE_DOMAINS
    | _ => false))

/-- The action loop of `_involves_sensitive_domain`: non-dict items are
skipped; the loop returns true as soon as one action matches. -/
def sensActionsLoop : List Val → Except PyErr Bool
  | [] => .ok false
  | v :: rest =>
    match v with
    | .vdict act => do
      let s1 ← sensService act
      if s1 then pure true
      else do
        let s2 ← sensEids act
        if s2 then pure true else sensActionsLoop rest
    | _ => sensActionsLoop rest

/-- The automation-record part of `_involves_sensitive_domain`:
`automation.get("action") or automation.get("actions") or []`, a bare
dict wrapped into a one-element list, then the action loop.  Iterating a
(truthy) string yields characters, all skipped as non-dicts; iterating
`None`/bool/int raises TypeError; a truthy non-dict automation has no
`.get` and raises AttributeError. -/
def sensAutomation (a : Val) : Except PyErr Bool :=
  match a with
  | .vdict ad =>
    match rawField ad "action" "actions" with
    | .vdict d => sensActionsLoop [.vdict d]
    | .vlist l => sensActionsLoop l
    | .vstr _ => .ok false
    | _ => .error .typeError
  | _ => .error .attributeError

/-- The current/suggested-YAML part of the sensitivity check: a truthy
(non-empty) YAML string that contains `"{domain}."` for some sensitive
domain. -/
def yamlSens : Option String → Bool
  | some y => y ≠ "" && SENSITIVE_DOMAINS.any (fun d => strContains y (d ++ "."))
  | none => false

/-- `_involves_sensitive_domain(finding, automation)` from
`quickfix/classifier.py`: (a) sensitive domain name in title+" "+
description, else (b) sensitive service/entity domain in the (truthy)
automation record, else (c) `"{domain}."` in current/suggested YAML. -/
def involves_sensitive_domain (f : ReviewFinding) (automation : Option Val) :
    Except PyErr Bool := do
  let text := f.title ++ " " ++ f.description
  if SENSITIVE_DOMAINS.any (fun d => strContains text d) then pure true
  else do
    let viaActions ←
      match automation with
      | some a => if pyTruthy a then sensAutomation a else pure false
      | none => pure false
    if viaActions then pure true
    else pure (yamlSens f.current_yaml || yamlSens f.suggested_yaml)

/-- `classify(finding, automation)` from `quickfix/classifier.py`: the
decision table, the `suggested_yaml` pickup for a QUICK candidate, and
the downgrade to GUIDED when no fix YAML is available. -/
def classify (f : ReviewFinding) (automation : Option Val) :
    Except PyErr EnrichedFinding := do
  let involves ← involves_sensitive_domain f automation
  let fix_type0 :=
    if f.category ∈ GUIDED_FIX_CATEGORIES then FixClassification.GUIDED
    else if f.category = .missing_guards ∧ involves then .GUIDED
    else if f.category ∈ QUICK_FIX_CATEGORIES then .QUICK
    else if f.category = .missing_guards ∧ ¬ involves then .QUICK
    else if f.category = .trigger_efficiency then .GUIDED
    else .GUIDED
  let yamlTruthy := match f.suggested_yaml with
    | some s => s ≠ ""
    | none => false
  let fy : Option String × String :=
    if fix_type0 == FixClassification.QUICK && yamlTruthy then
      (f.suggested_yaml, "Apply suggested fix from review analysis")
    else (none, "")
  let fix_type :=
    if fix_type0 == FixClassification.QUICK && fy.1.isNone then
      FixClassification.GUIDED
    else fix_type0
  pure { finding := f, fix_type := fix_type, fix_yaml := fy.1,
         requires_confirmation := involves, fix_description := fy.2 }

/-- `auto_map[aid] = a`: replace an existing key or append. -/
def mapSet : List (Val × Val) → Val → Val → List (Val × Val)
  | [], k, v => [(k, v)]
  | (k0, v0) :: rest, k, v =>
    if k0 = k then (k0, v) :: rest else (k0, v0) :: mapSet rest k v

/-- A dict key must be hashable: a list or dict key raises TypeError. -/
def hashableKey : Val → Except PyErr Val
  | .vlist _ => .error .typeError
  | .vdict _ => .error .typeError
  | v => .ok v

/-- The `auto_map` building loop of `classify_findings`: for each
automation, `aid = a.get("id", "")`; falsy ids are skipped. -/
def buildAutoMap : List Val → List (Val × Val) → Except PyErr (List (Val × Val))
  | [], m => .ok m
  | a :: rest, m =>
    match a with
    | .vdict ad =>
      let aid := (dictGet ad "id").getD (.vstr "")
      if pyTruthy aid then do
        let k ← hashableKey aid
        buildAutoMap rest (mapSet m k a)
      else buildAutoMap rest m
    | _ => .error .attributeError

/-- `auto_map.get(f.automation_id)`: a string key lookup (a non-string
key never equals a string). -/
def mapGetStr (m : List (Val × Val)) (s : String) : Option Val :=
  (m.find? (fun kv => kv.1 == Val.vstr s)).map (fun kv => kv.2)

/-- `classify_findings(findings, automations)` from
`quickfix/classifier.py`. -/
def classify_findings (findings : List ReviewFinding)
    (automations : Option (List Val)) : Except PyErr (List EnrichedFinding) := do
  let m ← match automations with
    | some autos => if autos.isEmpty then pure [] else buildAutoMap autos []
    | none => pure []
  findings.mapM (fun f => classify f (mapGetStr m f.automation_id))

/- ----------------------------------------------------------------------
quickfix/batch.py
---------------------------------------------------------------------- -/

/-- `FixApplicationResult` from `quickfix/batch.py`. -/
structure FixApplicationResult where
  finding_id : String := ""
  finding_title : String
  automation_id : String := ""
  success : Bool
  error : String := ""
deriving DecidableEq, Repr

/-- `BatchResult` from `quickfix/batch.py`. -/
structure BatchResult where
  total : Nat
  applied : Nat
  failed : Nat
  results : List FixApplicationResult := []
deriving DecidableEq, Repr

/-- The injected `deploy_fn(automation_id, fix_yaml)` capability: a
deterministic model of the async callable, returning `()` or the caught
exception message `str(e)`. -/
def DeployFn : Type := String → String → Except String Unit

/-- The per-item loop of `apply_batch`.  The first statement of the loop
body is `fid = ef.finding.finding_id`, which raises AttributeError
(`ReviewFinding` declares no `finding_id` field); the rest mirrors the
confirmation gate and the try/except around `deploy_fn`.  The filter
guarantees `fix_yaml` is present for every processed item. -/
def applyLoop (confirmed : List String) (deploy_fn : Option DeployFn) :
    List EnrichedFinding → Except PyErr (List FixApplicationResult)
  | [] => .ok []
  | ef :: rest => do
    let fid ← ef.finding.finding_id
    let aid := ef.finding.automation_id
    let r :=
      if ef.requires_confirmation ∧ fid ∉ confirmed then
        { finding_id := fid, finding_title := ef.finding.title,
          automation_id := aid, success := false,
          error := "Sensitive domain fix not confirmed" : FixApplicationResult }
      else
        match deploy_fn with
        | some dfn =>
          match dfn aid (ef.fix_yaml.getD "") with
          | .ok _ =>
            { finding_id := fid, finding_title := ef.finding.title,
              automation_id := aid, success := true }
          | .error e =>
            { finding_id := fid, finding_title := ef.finding.title,
              automation_id := aid, success := false, error := e }
        | none =>
          { finding_id := fid, finding_title := ef.finding.title,
            automation_id := aid, success := true }
    let rs ← applyLoop confirmed deploy_fn rest
    pure (r :: rs)

/-- `apply_batch(enriched_findings, confirmed_sensitive, deploy_fn)` from
`quickfix/batch.py`: filter to QUICK findings with a fix YAML, apply each
in order, and tally the outcomes. -/
def apply_batch (enriched_findings : List EnrichedFinding)
    (confirmed_sensitive : Option (List String))
    (deploy_fn : Option DeployFn) : Except PyErr BatchResult := do
  let confirmed := confirmed_sensitive.getD []
  let quick_fixes := enriched_findings.filter
    (fun ef => ef.fix_type == FixClassification.QUICK && ef.fix_yaml.isSome)
  let results ← applyLoop confirmed deploy_fn quick_fixes
  pure { total := quick_fixes.length,
         applied := (results.filter (fun r => r.success)).length,
         failed := (results.filter (fun r => ¬ r.success)).length,
         results := results }

/- ----------------------------------------------------------------------
Concrete fixtures and specification-side predicates used by the claims
---------------------------------------------------------------------- -/

/-- The contribution of a single dict entry inside
`_extract_entity_ids` (the body of the per-entry branch; named so the
walk can be reasoned about entry by entry). -/
def entryContrib (key : String) (value : Val) (path : String) :
    List (String × String) :=
  if key = "entity_id" ∨ key = "entity" then
    match value with
    | .vstr s => if entityIdMatch s then [(s, childPath path key)] else []
    | .vlist items =>
      items.foldr
        (fun item acc =>
          (match item with
           | .vstr s =>
             if entityIdMatch s then [(s, childPath path key)] else []
           | _ => []) ++ acc) []
    | _ => []
  else if key = "entities" then
    (match value with
     | .vlist items => entitiesScan items (childPath path key)
     | _ => []) ++ extract_entity_ids value (childPath path key)
  else
    extract_entity_ids value (childPath path key)

/-- An entity-id string sitting at a position that the extractor's
recognized-key rules reach: under `entity_id`/`entity` as a scalar or as
a string list item; under `entities` as a string list item or as the
`entity` value of a dict list item; and at any depth below other dict
keys (including below `entities`, into which the code also recurses) and
below list items. -/
inductive OccursEnt : Val → String → Prop where
  | other_key {d : List (String × Val)} {k : String} {w : Val} {s : String} :
      (k, w) ∈ d → k ≠ "entity_id" → k ≠ "entity" → k ≠ "entities" →
      OccursEnt w s → OccursEnt (.vdict d) s
  | entities_rec {d : List (String × Val)} {w : Val} {s : String} :
      ("entities", w) ∈ d → OccursEnt w s → OccursEnt (.vdict d) s
  | list_item {l : List Val} {v : Val} {s : String} :
      v ∈ l → OccursEnt v s → OccursEnt (.vlist l) s
  | direct_str {d : List (String × Val)} {k s : String} :
      (k, Val.vstr s) ∈ d → (k = "entity_id" ∨ k = "entity") →
      entityIdMatch s = true → OccursEnt (.vdict d) s
  | direct_list {d : List (String × Val)} {k : String} {items : List Val}
      {s : String} :
      (k, Val.vlist items) ∈ d → (k = "entity_id" ∨ k = "entity") →
      Val.vstr s ∈ items → entityIdMatch s = true → OccursEnt (.vdict d) s
  | entities_str {d : List (String × Val)} {items : List Val} {s : String} :
      ("entities", Val.vlist items) ∈ d → Val.vstr s ∈ items →
      entityIdMatch s = true → OccursEnt (.vdict d) s
  | entities_map {d : List (String × Val)} {items : List Val}
      {dm : List (String × Val)} {s : String} :
      ("entities", Val.vlist items) ∈ d → Val.vdict dm ∈ items →
      dictGet dm "entity" = some (Val.vstr s) → entityIdMatch s = true →
      OccursEnt (.vdict d) s

/-- A stack-shaped card `{"type": t, "cards": cs}`. -/
def stackCard (t : String) (cs : List Val) : Val :=
  .vdict [("type", .vstr t), ("cards", .vlist cs)]

/-- Fixture: a QUICK-classified enriched finding with a fix YAML (the
shape the batch applier is meant to process). -/
def c1Enriched : EnrichedFinding :=
  { finding :=
      { severity := .suggestion, category := .deprecated_patterns,
        automation_id := "auto_1", title := "Generic homeassistant.turn_on call",
        description := "Use a domain-specific service.",
        suggested_yaml := some "service: light.turn_on" },
    fix_type := .QUICK, fix_yaml := some "service: light.turn_on" }

/-- Fixture: a sensitive (unconfirmed) QUICK finding. -/
def c2EnrichedSens : EnrichedFinding :=
  { finding :=
      { severity := .suggestion, category := .deprecated_patterns,
        automation_id := "auto_lock", title := "Generic call on lock",
        description := "lock domain fix",
        suggested_yaml := some "service: lock.lock" },
    fix_type := .QUICK, fix_yaml := some "service: lock.lock",
    requires_confirmation := true }

/-- Fixture: a confirmed-eligible (non-sensitive) QUICK finding. -/
def c2EnrichedOk : EnrichedFinding :=
  { finding :=
      { severity := .suggestion, category := .deprecated_patterns,
        automation_id := "auto_2", title := "Generic homeassistant.turn_off call",
        description := "Use a domain-specific service.",
        suggested_yaml := some "service: light.turn_off" },
    fix_type := .QUICK, fix_yaml := some "service: light.turn_off" }

/-- Fixture for C4: one action with a list-valued `target.entity_id` and
a scalar `data.entity_id`. -/
def c4Auto : Val :=
  .vdict [("action", .vlist [.vdict
    [("service", .vstr "light.turn_on"),
     ("target", .vdict [("entity_id", .vlist [.vstr "lock.door"])]),
     ("data", .vdict [("entity_id", .vstr "light.lamp")])]])]

/-- The same record after `run_all_rules`: the aliased
`target.entity_id` list has been extended in place with the
`data.entity_id` value. -/
def c4AutoAfter : Val :=
  .vdict [("action", .vlist [.vdict
    [("service", .vstr "light.turn_on"),
     ("target", .vdict [("entity_id",
        .vlist [.vstr "lock.door", .vstr "light.lamp"])]),
     ("data", .vdict [("entity_id", .vstr "light.lamp")])]])]

/-- The security finding produced on `c4Auto`. -/
def c4SecurityFinding : ReviewFinding :=
  { severity := .critical, category := .security,
    automation_id := "unknown", automation_alias := "Unnamed automation",
    title := "Sensitive domain without adequate guards: lock",
    description := "This automation controls sensitive domain(s): lock. It has NO conditions, meaning the action runs unconditionally." }

/-- Fixture for C10: an automation record with a trigger, no conditions,
and no `id`/`alias` keys. -/
def c10Auto : Val := .vdict [("trigger", .vdict [("platform", .vstr "state")])]

/-- The missing-guards finding the rule engine produces on `c10Auto`. -/
def c10Finding : ReviewFinding :=
  { severity := .suggestion, category := .missing_guards,
    automation_id := "unknown", automation_alias := "Unnamed automation",
    title := "No conditions defined",
    description := "This automation has triggers but no conditions. Consider adding conditions to prevent unintended activations." }

/-- Fixture for C10: an automation whose `id` is literally the string
"unknown" and whose action touches the sensitive `lock` domain. -/
def c10AutoUnknown : Val :=
  .vdict [("id", .vstr "unknown"),
          ("action", .vdict [("service", .vstr "lock.lock")])]

/-- Fixture for C8's witness: a QUICK-candidate finding with no
suggested YAML. -/
def c8Finding : ReviewFinding :=
  { severity := .suggestion, category := .deprecated_patterns,
    automation_id := "auto_1", title := "Generic homeassistant.turn_on call",
    description := "Use a domain-specific service instead." }

/- ----------------------------------------------------------------------
Helper lemmas
---------------------------------------------------------------------- -/

theorem mapMCongrMem {α β ε : Type} (l : List α) (f g : α → Except ε β)
    (h : ∀ x ∈ l, f x = g x) : l.mapM f = l.mapM g := by
  induction l with
  | nil => rfl
  | cons x rest ih =>
    rw [List.mapM_cons, List.mapM_cons, h x (List.mem_cons_self x rest),
      ih (fun y hy => h y (List.mem_cons_of_mem x hy))]

theorem mergeRuleLoop_spec (A : List ReviewFinding) :
    ∀ seen merged, mergeRuleLoop A (seen, merged) =
      (seen ++ A.map findingKey, merged ++ A) := by
  induction A with
  | nil => intro seen merged; simp [mergeRuleLoop]
  | cons f fs ih => intro seen merged; simp [mergeRuleLoop, ih]

theorem mergeLLMLoop_snd (B : List ReviewFinding) :
    ∀ seen merged, (mergeLLMLoop B (seen, merged)).2 =
      merged ++ llmKeepSpec seen B := by
  induction B with
  | nil => intro seen merged; simp [mergeLLMLoop, llmKeepSpec]
  | cons f fs ih =>
    intro seen merged
    by_cases hk : findingKey f ∈ seen
    · simp [mergeLLMLoop, llmKeepSpec, hk, ih]
    · simp [mergeLLMLoop, llmKeepSpec, hk, ih]

/- ----------------------------------------------------------------------
Claim theorems
---------------------------------------------------------------------- -/

/-- Claim C7: the merge returns all deterministic findings in order,
followed by exactly those LLM findings whose dedup key
`(automation_id, category.value, title[:30])` was not already seen;
deterministic findings always win key collisions. -/
theorem merge_findings_keeps_rule_findings (A B : List ReviewFinding) :
    merge_findings A B = A ++ llmKeepSpec (A.map findingKey) B := by
  simp [merge_findings, mergeRuleLoop_spec, mergeLLMLoop_snd]

/-- Claim C1 (code bug): a list holding one QUICK finding with a fix
YAML makes `apply_batch` raise AttributeError at
`fid = ef.finding.finding_id` (the `ReviewFinding` model declares no
`finding_id` field), instead of returning a `BatchResult`. -/
theorem apply_batch_finding_id_attribute_error :
    (c1Enriched.fix_type = FixClassification.QUICK ∧ c1Enriched.fix_yaml ≠ none) ∧
    apply_batch [c1Enriched] none none = .error .attributeError :=
  ⟨⟨by rfl, by decide⟩, by rfl⟩

/-- Claim C2 (code bug): the two-finding confirmation-gate scenario
(one unconfirmed sensitive, one confirmed) also dies on the same
missing-field AttributeError before any result is recorded, instead of
yielding `total=2, applied=1, failed=1`. -/
theorem apply_batch_confirmation_gate_attribute_error :
    c2EnrichedSens.requires_confirmation = true ∧
    apply_batch [c2EnrichedSens, c2EnrichedOk] (some ["f2"]) none =
      .error .attributeError :=
  ⟨by rfl, by rfl⟩

/-- Claim C4 (code bug): `run_all_rules` is not pure in its input — on an
action with a list-valued `target.entity_id` and a `data.entity_id`, the
security check's `entity_ids.extend(data_entity_ids)` mutates the aliased
list, so the automation record after the call differs from its value
before. -/
theorem run_all_rules_mutates_automation :
    run_all_rules c4Auto = .ok ([c4SecurityFinding], c4AutoAfter) ∧
    c4AutoAfter ≠ c4Auto :=
  ⟨by rfl, by decide⟩

/-- Claim C3 counterexample: a parse succeeding with a non-null
top-level *list* makes `check_yaml_syntax` raise a pydantic validation
error (the `yaml_parsed: dict[str, Any] | None` field rejects a list)
instead of returning a `valid=true` result. -/
theorem yaml_syntax_list_counterexample :
    yaml_syntax_check "- a" (.pok (.vlist [.vstr "a"])) =
      .error .validationError := by
  rfl

/-- Claim C3 as amended: for non-blank input whose parse succeeds with a
non-null *mapping*, `check_yaml_syntax` returns `valid=true` with the
plain mapping as the parsed document; a top-level list (or scalar)
instead raises a model-validation error. -/
theorem yaml_syntax_mapping_only (s : String) (d : List (String × Val))
    (l : List Val) (h : pyBlank s = false) :
    yaml_syntax_check s (.pok (.vdict d)) =
      .ok { valid := true, issues := [], yaml_parsed := some (.vdict d) } ∧
    yaml_syntax_check s (.pok (.vlist l)) = .error .validationError := by
  simp [yaml_syntax_check, h]

theorem yaml_syntax_mapping_only_witness :
    pyBlank "a: 1" = false ∧
    yaml_syntax_check "a: 1" (.pok (.vdict [("a", .vint 1)])) =
      .ok { valid := true, issues := [],
            yaml_parsed := some (.vdict [("a", .vint 1)]) } :=
  ⟨by decide,
   (yaml_syntax_mapping_only "a: 1" [("a", .vint 1)] [] (by decide)).1⟩

/-- Claim C5 counterexample: an entity-ID-shaped string inside a map
stored under an `entity_id` key is *not* extracted — the recursion does
not walk into values under `entity_id`/`entity` keys. -/
theorem extractor_nested_entity_id_counterexample :
    entityIdMatch "light.kitchen" = true ∧
    extract_entity_ids
      (.vdict [("entity_id", .vdict [("x", .vstr "light.kitchen")])]) "" = [] :=
  ⟨by rfl, by rfl⟩

/-- Claim C10 counterexample: findings of an id-less automation carry
`automation_id = "unknown"`; when another automation's literal id is
"unknown" (a truthy id, so it is in the lookup map), `classify_findings`
resolves that record for them — here flipping `requires_confirmation` to
true — rather than classifying with no originating record. -/
theorem unknown_id_collision_counterexample :
    run_all_rules c10Auto = .ok ([c10Finding], c10Auto) ∧
    classify_findings [c10Finding] (some [c10AutoUnknown]) =
      .ok [{ finding := c10Finding, fix_type := .GUIDED, fix_yaml := none,
             requires_confirmation := true, fix_description := "" }] ∧
    classify c10Finding none =
      .ok { finding := c10Finding, fix_type := .GUIDED, fix_yaml := none,
            requires_confirmation := false, fix_description := "" } :=
  ⟨by rfl, by rfl, by rfl⟩

/-- Claim C8: a QUICK-candidate finding (deprecated_patterns,
card_type_recommendation, inconsistent_cards, or non-sensitive
missing_guards) whose `suggested_yaml` is None is downgraded: `classify`
returns GUIDED with `fix_yaml = None` (and `requires_confirmation`
equal to the sensitivity-check result). -/
theorem classify_quick_candidate_without_yaml (f : ReviewFinding)
    (auto : Option Val) (s : Bool)
    (hs : involves_sensitive_domain f auto = .ok s)
    (hcat : f.category ∈ QUICK_FIX_CATEGORIES ∨
      (f.category = .missing_guards ∧ s = false))
    (hy : f.suggested_yaml = none) :
    classify f auto =
      .ok { finding := f, fix_type := .GUIDED, fix_yaml := none,
            requires_confirmation := s, fix_description := "" } := by
  rcases hcat with hq | ⟨hmg, hsf⟩
  · simp only [QUICK_FIX_CATEGORIES, List.mem_cons, List.not_mem_nil,
      or_false] at hq
    rcases hq with h1 | h1 | h1 <;>
      simp [classify, hs, hy, h1, GUIDED_FIX_CATEGORIES,
        QUICK_FIX_CATEGORIES, Except.bind]
  · subst hsf
    simp [classify, hs, hy, hmg, GUIDED_FIX_CATEGORIES,
      QUICK_FIX_CATEGORIES, Except.bind]

theorem classify_quick_candidate_without_yaml_witness :
    involves_sensitive_domain c8Finding none = .ok false ∧
    c8Finding.category ∈ QUICK_FIX_CATEGORIES ∧
    c8Finding.suggested_yaml = none ∧
    classify c8Finding none =
      .ok { finding := c8Finding, fix_type := .GUIDED, fix_yaml := none,
            requires_confirmation := false, fix_description := "" } :=
  ⟨by rfl, by decide, by rfl,
   classify_quick_candidate_without_yaml c8Finding none false (by rfl)
     (Or.inl (by decide)) (by rfl)⟩

/-- Claim C9 as amended: whenever the syntax stage returns a valid result
with a parsed document, `validate_dashboard` short-circuits with
`valid=false` and no card-type/entity-ref issues if the schema check
yields any Error-severity issue, and otherwise — provided the card-type
check returns normally — keeps `valid=true` and appends the card-type and
entity-ref issues. -/
theorem validate_dashboard_schema_gate (s : String) (p : ParseOutcome)
    (fuzzy : String → Option String) (known : List String)
    (r : ValidationResult) (doc : Val)
    (hsyn : yaml_syntax_check s p = .ok r)
    (hval : r.valid = true) (hdoc : r.yaml_parsed = some doc) :
    ((check_dashboard_schema doc).any (fun i => i.severity = .error) = true →
      validate_dashboard s p fuzzy known =
        .ok { valid := false,
              issues := r.issues ++ check_dashboard_schema doc,
              yaml_parsed := some doc }) ∧
    (∀ cardIssues,
      (check_dashboard_schema doc).any (fun i => i.severity = .error) = false →
      check_card_types doc = .ok cardIssues →
      validate_dashboard s p fuzzy known =
        .ok { valid := true,
              issues := (r.issues ++ check_dashboard_schema doc) ++
                cardIssues ++ check_entity_refs fuzzy doc known,
              yaml_parsed := some doc }) := by
  obtain ⟨rv, ri, rp⟩ := r
  simp only at hval hdoc
  subst hval
  subst hdoc
  constructor
  · intro hcond
    rw [List.any_eq_true] at hcond
    simp only [decide_eq_true_eq] at hcond
    simp [validate_dashboard, hsyn, Except.bind, bind, hcond]
    rfl
  · intro cardIssues hcond hcard
    rw [List.any_eq_false] at hcond
    simp only [decide_eq_true_eq] at hcond
    simp [validate_dashboard, hsyn, Except.bind, bind]
    rw [if_neg (by rintro ⟨x, hx, he⟩; exact hcond x hx he)]
    rw [hcard]
    rfl

theorem validate_dashboard_schema_gate_witness :
    yaml_syntax_check "views: []" (.pok (.vdict [("views", .vlist [])])) =
      .ok { valid := true, issues := [],
            yaml_parsed := some (.vdict [("views", .vlist [])]) } ∧
    check_dashboard_schema (.vdict [("views", .vlist [])]) =
      [{ severity := .warning, check_name := "dashboard_schema",
         message := "Dashboard has no views." }] ∧
    check_card_types (.vdict [("views", .vlist [])]) = .ok [] ∧
    validate_dashboard "views: []" (.pok (.vdict [("views", .vlist [])]))
      (fun _ => none) [] =
      .ok { valid := true,
            issues := [{ severity := .warning, check_name := "dashboard_schema",
                         message := "Dashboard has no views." }],
            yaml_parsed := some (.vdict [("views", .vlist [])]) } :=
  ⟨by rfl, by rfl, by rfl,
   by
    have h := (validate_dashboard_schema_gate "views: []"
      (.pok (.vdict [("views", .vlist [])])) (fun _ => none) []
      { valid := true, issues := [],
        yaml_parsed := some (.vdict [("views", .vlist [])]) }
      (.vdict [("views", .vlist [])]) (by rfl) rfl rfl).2 [] (by rfl) (by rfl)
    exact h.trans (by rfl)⟩

/-- When the syntax stage succeeds with a valid parsed document and the
schema check has no Error-severity issue, an exception raised by the
card-type check propagates out of `validate_dashboard`. -/
theorem validate_dashboard_card_error (s : String) (p : ParseOutcome)
    (fuzzy : String → Option String) (known : List String)
    (r : ValidationResult) (doc : Val) (e : PyErr)
    (hsyn : yaml_syntax_check s p = .ok r)
    (hval : r.valid = true) (hdoc : r.yaml_parsed = some doc)
    (hcond : (check_dashboard_schema doc).any
      (fun i => i.severity = .error) = false)
    (hcard : check_card_types doc = .error e) :
    validate_dashboard s p fuzzy known = .error e := by
  obtain ⟨rv, ri, rp⟩ := r
  simp only at hval hdoc
  subst hval
  subst hdoc
  rw [List.any_eq_false] at hcond
  simp only [decide_eq_true_eq] at hcond
  simp [validate_dashboard, hsyn, Except.bind, bind]
  rw [if_neg (by rintro ⟨x, hx, he⟩; exact hcond x hx he)]
  rw [hcard]

/-- Counterexample to claim C9 as stated: for the parsed document
\x7b"views": [\x7b"cards": [\x7b"type": ["x"]\x7d]\x7d]\x7d the schema
check yields no Error-severity issue, yet `validate_dashboard` does not
return a `valid=true` result with the card-type and entity-ref issues
appended: the card-type check hashes the truthy list-valued `type`
against the `VALID_CARD_TYPES` set, which raises TypeError, and the
error propagates out of `validate_dashboard`. -/
theorem validate_dashboard_card_type_typeerror_counterexample :
    (check_dashboard_schema
        (.vdict [("views", .vlist [.vdict [("cards",
          .vlist [.vdict [("type", .vlist [.vstr "x"])]])]])])).any
      (fun i => i.severity = .error) = false ∧
    check_card_types
        (.vdict [("views", .vlist [.vdict [("cards",
          .vlist [.vdict [("type", .vlist [.vstr "x"])]])]])]) =
      .error .typeError ∧
    validate_dashboard "views:\n- cards:\n  - type:\n    - x"
        (.pok (.vdict [("views", .vlist [.vdict [("cards",
          .vlist [.vdict [("type", .vlist [.vstr "x"])]])]])]))
        (fun _ => none) [] =
      .error .typeError := by
  have hcard : check_card_types
      (.vdict [("views", .vlist [.vdict [("cards",
        .vlist [.vdict [("type", .vlist [.vstr "x"])]])]])]) =
      .error .typeError := by
    show cardViewLoop
      [.vdict [("cards", .vlist [.vdict [("type", .vlist [.vstr "x"])]])]] 0 =
      .error .typeError
    simp [cardViewLoop, cardsRec, dictGet, pyTruthy, Except.bind, bind]
  refine ⟨by rfl, hcard, ?_⟩
  exact validate_dashboard_card_error _ _ _ _
    { valid := true, issues := [],
      yaml_parsed := some (.vdict [("views", .vlist [.vdict [("cards",
        .vlist [.vdict [("type", .vlist [.vstr "x"])]])]])]) }
    (.vdict [("views", .vlist [.vdict [("cards",
      .vlist [.vdict [("type", .vlist [.vstr "x"])]])]])]) .typeError
    (by rfl) rfl rfl (by rfl) hcard

theorem extractEntries_cons (k : String) (w : Val) (path : String)
    (rest : List (String × Val)) :
    extractEntries ((k, w) :: rest) path =
      entryContrib k w path ++ extractEntries rest path := rfl

theorem entryContrib_other {k : String} (hk1 : k ≠ "entity_id")
    (hk2 : k ≠ "entity") (hk3 : k ≠ "entities") (w : Val) (path : String) :
    entryContrib k w path = extract_entity_ids w (childPath path k) := by
  simp [entryContrib, hk1, hk2, hk3]

theorem entryContrib_entities (w : Val) (path : String) :
    entryContrib "entities" w path =
      (match w with
       | .vlist items => entitiesScan items (childPath path "entities")
       | _ => []) ++ extract_entity_ids w (childPath path "entities") := by
  simp [entryContrib]

theorem entryContrib_special_str {k : String}
    (hk : k = "entity_id" ∨ k = "entity") (sv : String) (path : String) :
    entryContrib k (.vstr sv) path =
      if entityIdMatch sv then [(sv, childPath path k)] else [] := by
  rcases hk with rfl | rfl <;> simp [entryContrib]

theorem entryContrib_special_list {k : String}
    (hk : k = "entity_id" ∨ k = "entity") (items : List Val) (path : String) :
    entryContrib k (.vlist items) path =
      items.foldr
        (fun item acc =>
          (match item with
           | Val.vstr t =>
             if entityIdMatch t then [(t, childPath path k)] else []
           | _ => []) ++ acc) [] := by
  rcases hk with rfl | rfl <;> simp [entryContrib]

theorem mem_fst_extractEntries {d : List (String × Val)} {path s : String}
    {k : String} {w : Val} (hm : (k, w) ∈ d)
    (hx : s ∈ (entryContrib k w path).map Prod.fst) :
    s ∈ (extractEntries d path).map Prod.fst := by
  induction d with
  | nil => cases hm
  | cons e rest ih =>
    obtain ⟨ek, ew⟩ := e
    rcases List.mem_cons.mp hm with he | hrest
    · obtain ⟨h1, h2⟩ := Prod.mk.injEq .. ▸ he
      subst h1
      subst h2
      rw [extractEntries_cons, List.map_append]
      exact List.mem_append.mpr (Or.inl hx)
    · rw [extractEntries_cons, List.map_append]
      exact List.mem_append.mpr (Or.inr (ih hrest))

theorem mem_fst_extractItems {l : List Val} {v : Val} {s : String}
    (hv : v ∈ l)
    (hall : ∀ p, s ∈ (extract_entity_ids v p).map Prod.fst) :
    ∀ path i, s ∈ (extractItems l path i).map Prod.fst := by
  induction l with
  | nil => cases hv
  | cons x rest ih =>
    intro path i
    rcases List.mem_cons.mp hv with he | hrest
    · subst he
      rw [extractItems, List.map_append]
      exact List.mem_append.mpr (Or.inl (hall _))
    · rw [extractItems, List.map_append]
      exact List.mem_append.mpr (Or.inr (ih hrest path (i + 1)))

theorem mem_fst_strScan {items : List Val} {s : String} (cur : String)
    (hin : Val.vstr s ∈ items) (hm : entityIdMatch s = true) :
    s ∈ ((items.foldr
      (fun item acc =>
        (match item with
         | Val.vstr t => if entityIdMatch t then [(t, cur)] else []
         | _ => []) ++ acc) []).map Prod.fst) := by
  induction items with
  | nil => cases hin
  | cons x rest ih =>
    rcases List.mem_cons.mp hin with he | hrest
    · subst he
      simp only [List.foldr_cons, hm, if_true, List.map_append,
        List.mem_append]
      exact Or.inl (by simp)
    · simp only [List.foldr_cons, List.map_append, List.mem_append]
      exact Or.inr (ih hrest)

theorem mem_fst_entitiesScan_str {items : List Val} {s : String}
    (cur : String) (hin : Val.vstr s ∈ items)
    (hm : entityIdMatch s = true) :
    s ∈ (entitiesScan items cur).map Prod.fst := by
  induction items with
  | nil => cases hin
  | cons x rest ih =>
    rcases List.mem_cons.mp hin with he | hrest
    · subst he
      simp only [entitiesScan, List.foldr_cons, hm, if_true,
        List.map_append, List.mem_append]
      exact Or.inl (by simp)
    · simp only [entitiesScan, List.foldr_cons, List.map_append,
        List.mem_append] at ih ⊢
      exact Or.inr (ih hrest)

theorem mem_fst_entitiesScan_map {items : List Val}
    {dm : List (String × Val)} {s : String} (cur : String)
    (hin : Val.vdict dm ∈ items)
    (hget : dictGet dm "entity" = some (Val.vstr s))
    (hm : entityIdMatch s = true) :
    s ∈ (entitiesScan items cur).map Prod.fst := by
  induction items with
  | nil => cases hin
  | cons x rest ih =>
    rcases List.mem_cons.mp hin with he | hrest
    · subst he
      simp only [entitiesScan, List.foldr_cons, hget, hm, if_true,
        List.map_append, List.mem_append]
      exact Or.inl (by simp)
    · simp only [entitiesScan, List.foldr_cons, List.map_append,
        List.mem_append] at ih ⊢
      exact Or.inr (ih hrest)

/-- Claim C5 as amended: every entity-ID-shaped string sitting at a
position the extractor's recognized-key rules reach (`OccursEnt`) appears
in the output, at any nesting depth below other keys and list items; the
forced exception is that values under `entity_id`/`entity` are scanned
only as a scalar string or a list of strings, never recursed into. -/
theorem extractor_finds_recognized_occurrences {v : Val} {s : String}
    (h : OccursEnt v s) :
    ∀ path, s ∈ (extract_entity_ids v path).map Prod.fst := by
  induction h with
  | other_key hmem hk1 hk2 hk3 _ ih =>
    intro path
    rw [extract_entity_ids]
    refine mem_fst_extractEntries hmem ?_
    rw [entryContrib_other hk1 hk2 hk3]
    exact ih _
  | entities_rec hmem _ ih =>
    intro path
    rw [extract_entity_ids]
    refine mem_fst_extractEntries hmem ?_
    rw [entryContrib_entities, List.map_append]
    exact List.mem_append.mpr (Or.inr (ih _))
  | list_item hv _ ih =>
    intro path
    rw [extract_entity_ids]
    exact mem_fst_extractItems hv ih path 0
  | direct_str hmem hk hmatch =>
    intro path
    rw [extract_entity_ids]
    refine mem_fst_extractEntries hmem ?_
    rw [entryContrib_special_str hk, hmatch]
    simp
  | direct_list hmem hk hin hmatch =>
    intro path
    rw [extract_entity_ids]
    refine mem_fst_extractEntries hmem ?_
    rw [entryContrib_special_list hk]
    exact mem_fst_strScan _ hin hmatch
  | entities_str hmem hin hmatch =>
    intro path
    rw [extract_entity_ids]
    refine mem_fst_extractEntries hmem ?_
    rw [entryContrib_entities, List.map_append]
    exact List.mem_append.mpr (Or.inl (mem_fst_entitiesScan_str _ hin hmatch))
  | entities_map hmem hin hget hmatch =>
    intro path
    rw [extract_entity_ids]
    refine mem_fst_extractEntries hmem ?_
    rw [entryContrib_entities, List.map_append]
    exact List.mem_append.mpr
      (Or.inl (mem_fst_entitiesScan_map _ hin hget hmatch))

theorem extractor_finds_recognized_occurrences_witness :
    OccursEnt (.vdict [("foo",
      .vlist [.vdict [("entity_id", .vstr "light.x")]])]) "light.x" ∧
    "light.x" ∈ ((extract_entity_ids (.vdict [("foo",
      .vlist [.vdict [("entity_id", .vstr "light.x")]])]) "").map Prod.fst) := by
  have d3 : OccursEnt (.vdict [("entity_id", .vstr "light.x")]) "light.x" :=
    OccursEnt.direct_str (List.mem_cons_self _ _) (Or.inl rfl) (by decide)
  have d2 : OccursEnt (.vlist [.vdict [("entity_id", .vstr "light.x")]])
      "light.x" :=
    OccursEnt.list_item (List.mem_cons_self _ _) d3
  have d1 : OccursEnt (.vdict [("foo",
      .vlist [.vdict [("entity_id", .vstr "light.x")]])]) "light.x" :=
    OccursEnt.other_key (List.mem_cons_self _ _) (by decide) (by decide)
      (by decide) d2
  exact ⟨d1, extractor_finds_recognized_occurrences d1 ""⟩

/-- Claim C6 counterexample: a `(entity, card_type)` pair on a card
nested inside a `grid` container is *not* collected by the dashboard
rule engine's collector, while the same card nested in a
`vertical-stack` is. -/
theorem collector_grid_not_flattened_counterexample :
    collect_card_entities (.vlist [stackCard "grid"
      [.vdict [("type", .vstr "light"), ("entity", .vstr "light.x")]]]) =
      .ok [] ∧
    collect_card_entities (.vlist [stackCard "vertical-stack"
      [.vdict [("type", .vstr "light"), ("entity", .vstr "light.x")]]]) =
      .ok [(.vstr "light.x", .vstr "light")] := by
  constructor <;>
    · simp [collect_card_entities, collectCards, stackCard, entitiesPairs,
        dictGet, pyEqStr, pyTruthy, Except.bind, bind]
      rfl

/-- Claim C6 as amended: the collector flattens only `horizontal-stack`
and `vertical-stack` containers into their nested `cards` list; a `grid`
container contributes nothing for its nested cards (unlike the card-type
check, which also flattens `grid`). -/
theorem collector_stack_flattening_only (cs rest : List Val) :
    collectCards (stackCard "horizontal-stack" cs :: rest) =
      (do
        let a ← collectCards cs
        let b ← collectCards rest
        pure (a ++ b)) ∧
    collectCards (stackCard "vertical-stack" cs :: rest) =
      (do
        let a ← collectCards cs
        let b ← collectCards rest
        pure (a ++ b)) ∧
    collectCards (stackCard "grid" cs :: rest) = collectCards rest := by
  refine ⟨?_, ?_, ?_⟩
  · simp [collectCards, collect_card_entities, stackCard, dictGet,
      pyEqStr, entitiesPairs, pyTruthy, Except.bind, bind]
  · simp [collectCards, collect_card_entities, stackCard, dictGet,
      pyEqStr, entitiesPairs, pyTruthy, Except.bind, bind]
  · simp [collectCards, collect_card_entities, stackCard, dictGet,
      pyEqStr, entitiesPairs, pyTruthy, Except.bind, bind]
    cases hcr : collectCards rest <;> simp [Except.bind] <;> rfl

theorem exceptBindOk {α β : Type} {x : Except PyErr α}
    {g : α → Except PyErr β} {b : β}
    (h : (x >>= g) = .ok b) : ∃ a, x = .ok a ∧ g a = .ok b := by
  cases x with
  | error e => simp [Bind.bind, Except.bind] at h
  | ok a => exact ⟨a, rfl, by simpa [Bind.bind, Except.bind] using h⟩

theorem trigLoop_ids {a : Val} {aid al : String}
    (haid : pyAutoId a = .ok aid) (hal : pyAutoAlias a = .ok al) :
    ∀ ts fs, trigLoop a ts = .ok fs →
      ∀ f ∈ fs, f.automation_id = aid ∧ f.automation_alias = al := by
  intro ts
  induction ts with
  | nil =>
    intro fs h f hf
    rw [trigLoop] at h
    cases h
    cases hf
  | cons t rest ih =>
    intro fs h f hf
    rw [trigLoop] at h
    by_cases hc : timePatternFlag t
    · rw [if_pos hc, haid, hal] at h
      simp only [Except.bind, bind, pure] at h
      rcases hr : trigLoop a rest with e | more <;> rw [hr] at h
      · cases h
      · simp only [List.singleton_append] at h
        cases h
        rcases List.mem_cons.mp hf with rfl | hf2
        · exact ⟨rfl, rfl⟩
        · exact ih more hr f hf2
    · rw [if_neg hc] at h
      simp only [Except.bind, bind, pure] at h
      rcases hr : trigLoop a rest with e | more <;> rw [hr] at h
      · cases h
      · simp only [List.nil_append] at h
        cases h
        exact ih more hr f hf

theorem check_trigger_efficiency_ids {a : Val} {aid al : String}
    (haid : pyAutoId a = .ok aid) (hal : pyAutoAlias a = .ok al)
    {fs : List ReviewFinding} (h : check_trigger_efficiency a = .ok fs) :
    ∀ f ∈ fs, f.automation_id = aid ∧ f.automation_alias = al := by
  rw [check_trigger_efficiency] at h
  simp only [Except.bind, bind] at h
  rcases hg : get_trigger_list a with e | ts <;> rw [hg] at h
  · cases h
  · exact trigLoop_ids haid hal ts fs h

theorem check_missing_guards_ids {a : Val} {aid al : String}
    (haid : pyAutoId a = .ok aid) (hal : pyAutoAlias a = .ok al)
    {fs : List ReviewFinding} (h : check_missing_guards a = .ok fs) :
    ∀ f ∈ fs, f.automation_id = aid ∧ f.automation_alias = al := by
  rw [check_missing_guards] at h
  obtain ⟨ts, hg, h⟩ := exceptBindOk h
  obtain ⟨cs, hg2, h⟩ := exceptBindOk h
  by_cases hcond : ¬ ts.isEmpty = true ∧ cs.isEmpty = true
  · rw [if_pos hcond] at h
    obtain ⟨aid2, haid2, h⟩ := exceptBindOk h
    obtain ⟨al2, hal2, h⟩ := exceptBindOk h
    rw [haid] at haid2
    cases haid2
    rw [hal] at hal2
    cases hal2
    cases h
    intro f hf
    rcases List.mem_cons.mp hf with rfl | hf2
    · exact ⟨rfl, rfl⟩
    · cases hf2
  · rw [if_neg hcond] at h
    cases h
    intro f hf
    cases hf

theorem securityAction_ids {a : Val} {aid al : String}
    (haid : pyAutoId a = .ok aid) (hal : pyAutoAlias a = .ok al)
    {ce : Bool} {act act' : List (String × Val)} {fs : List ReviewFinding}
    (h : securityAction ce a act = .ok (fs, act')) :
    ∀ f ∈ fs, f.automation_id = aid ∧ f.automation_alias = al := by
  unfold securityAction at h
  rw [haid, hal] at h
  simp only [Except.bind, bind, pure] at h
  repeat' split at h
  all_goals cases h
  all_goals intro f hf
  all_goals
    first
    | exact absurd hf (List.not_mem_nil f)
    | (rcases List.mem_cons.mp hf with rfl | hf2
       exacts [⟨rfl, rfl⟩, absurd hf2 (List.not_mem_nil f)])

theorem securityList_ids {a : Val} {aid al : String}
    (haid : pyAutoId a = .ok aid) (hal : pyAutoAlias a = .ok al) {ce : Bool} :
    ∀ l fs lr, securityList ce a l = .ok (fs, lr) →
      ∀ f ∈ fs, f.automation_id = aid ∧ f.automation_alias = al := by
  intro l
  induction l with
  | nil =>
    intro fs lr h f hf
    rw [securityList] at h
    cases h
    cases hf
  | cons v rest ih =>
    intro fs lr h f hf
    cases v with
    | vdict actd =>
      have heq : securityList ce a (Val.vdict actd :: rest) =
          (securityAction ce a actd) >>= (fun p =>
            (securityList ce a rest) >>= (fun p2 =>
              pure (p.1 ++ p2.1, Val.vdict p.2 :: p2.2))) := rfl
      rw [heq] at h
      obtain ⟨p, ha, h⟩ := exceptBindOk h
      obtain ⟨p2, hr, h⟩ := exceptBindOk h
      cases h
      rcases List.mem_append.mp hf with h1 | h2
      · exact securityAction_ids haid hal ha f h1
      · exact ih p2.1 p2.2 hr f h2
    | vnull =>
      have heq : securityList ce a (Val.vnull :: rest) =
          (securityList ce a rest) >>= (fun p2 =>
            pure (p2.1, Val.vnull :: p2.2)) := rfl
      rw [heq] at h
      obtain ⟨p2, hr, h⟩ := exceptBindOk h
      cases h
      exact ih p2.1 p2.2 hr f hf
    | vbool b =>
      have heq : securityList ce a (Val.vbool b :: rest) =
          (securityList ce a rest) >>= (fun p2 =>
            pure (p2.1, Val.vbool b :: p2.2)) := rfl
      rw [heq] at h
      obtain ⟨p2, hr, h⟩ := exceptBindOk h
      cases h
      exact ih p2.1 p2.2 hr f hf
    | vint n =>
      have heq : securityList ce a (Val.vint n :: rest) =
          (securityList ce a rest) >>= (fun p2 =>
            pure (p2.1, Val.vint n :: p2.2)) := rfl
      rw [heq] at h
      obtain ⟨p2, hr, h⟩ := exceptBindOk h
      cases h
      exact ih p2.1 p2.2 hr f hf
    | vstr t =>
      have heq : securityList ce a (Val.vstr t :: rest) =
          (securityList ce a rest) >>= (fun p2 =>
            pure (p2.1, Val.vstr t :: p2.2)) := rfl
      rw [heq] at h
      obtain ⟨p2, hr, h⟩ := exceptBindOk h
      cases h
      exact ih p2.1 p2.2 hr f hf
    | vlist li =>
      have heq : securityList ce a (Val.vlist li :: rest) =
          (securityList ce a rest) >>= (fun p2 =>
            pure (p2.1, Val.vlist li :: p2.2)) := rfl
      rw [heq] at h
      obtain ⟨p2, hr, h⟩ := exceptBindOk h
      cases h
      exact ih p2.1 p2.2 hr f hf

theorem check_security_concerns_ids {a : Val} {aid al : String}
    (haid : pyAutoId a = .ok aid) (hal : pyAutoAlias a = .ok al)
    {fs : List ReviewFinding} {a' : Val}
    (h : check_security_concerns a = .ok (fs, a')) :
    ∀ f ∈ fs, f.automation_id = aid ∧ f.automation_alias = al := by
  cases a with
  | vdict ad =>
    have heq : check_security_concerns (Val.vdict ad) =
        (get_condition_list (Val.vdict ad)) >>= (fun cs =>
          match rawField ad "action" "actions" with
          | Val.vdict actd =>
            (securityAction cs.isEmpty (Val.vdict ad) actd) >>= (fun p =>
              pure (p.1, Val.vdict
                (match (if pyTruthy ((dictGet ad "action").getD Val.vnull) = true
                    then some "action"
                    else if pyTruthy ((dictGet ad "actions").getD Val.vnull) = true
                    then some "actions" else none) with
                 | some k => dictSet ad k (Val.vdict p.2)
                 | none => ad)))
          | Val.vlist l =>
            (securityList cs.isEmpty (Val.vdict ad) l) >>= (fun p =>
              pure (p.1, Val.vdict
                (match (if pyTruthy ((dictGet ad "action").getD Val.vnull) = true
                    then some "action"
                    else if pyTruthy ((dictGet ad "actions").getD Val.vnull) = true
                    then some "actions" else none) with
                 | some k => dictSet ad k (Val.vlist p.2)
                 | none => ad)))
          | _ => pure ([], Val.vdict ad)) := rfl
    rw [heq] at h
    obtain ⟨cs, hcs, h⟩ := exceptBindOk h
    rcases hrf : rawField ad "action" "actions" with _ | b | n | t | li | actd
    · rw [hrf] at h
      cases h
      intro f hf
      cases hf
    · rw [hrf] at h
      cases h
      intro f hf
      cases hf
    · rw [hrf] at h
      cases h
      intro f hf
      cases hf
    · rw [hrf] at h
      cases h
      intro f hf
      cases hf
    · rw [hrf] at h
      obtain ⟨p, hl, h⟩ := exceptBindOk h
      cases h
      intro f hf
      exact securityList_ids haid hal li p.1 p.2 hl f hf
    · rw [hrf] at h
      obtain ⟨p, ha2, h⟩ := exceptBindOk h
      cases h
      intro f hf
      exact securityAction_ids haid hal ha2 f hf
  | vnull =>
    rw [check_security_concerns] at h
    obtain ⟨cs, hcs, h⟩ := exceptBindOk h
    simp [get_condition_list] at hcs
  | vbool b =>
    rw [check_security_concerns] at h
    obtain ⟨cs, hcs, h⟩ := exceptBindOk h
    simp [get_condition_list] at hcs
  | vint n =>
    rw [check_security_concerns] at h
    obtain ⟨cs, hcs, h⟩ := exceptBindOk h
    simp [get_condition_list] at hcs
  | vstr t =>
    rw [check_security_concerns] at h
    obtain ⟨cs, hcs, h⟩ := exceptBindOk h
    simp [get_condition_list] at hcs
  | vlist l =>
    rw [check_security_concerns] at h
    obtain ⟨cs, hcs, h⟩ := exceptBindOk h
    simp [get_condition_list] at hcs

theorem deprecatedAction_ids {a : Val} {aid al : String}
    (haid : pyAutoId a = .ok aid) (hal : pyAutoAlias a = .ok al)
    {act : List (String × Val)} {fs : List ReviewFinding}
    (h : deprecatedAction a act = .ok fs) :
    ∀ f ∈ fs, f.automation_id = aid ∧ f.automation_alias = al := by
  unfold deprecatedAction at h
  rw [haid, hal] at h
  simp only [Except.bind, bind, pure] at h
  repeat' split at h
  all_goals cases h
  all_goals intro f hf
  all_goals
    first
    | exact absurd hf (List.not_mem_nil f)
    | (rcases List.mem_cons.mp hf with rfl | hf2
       exacts [⟨rfl, rfl⟩, absurd hf2 (List.not_mem_nil f)])

theorem deprecatedLoop_ids {a : Val} {aid al : String}
    (haid : pyAutoId a = .ok aid) (hal : pyAutoAlias a = .ok al) :
    ∀ acts fs, deprecatedLoop a acts = .ok fs →
      ∀ f ∈ fs, f.automation_id = aid ∧ f.automation_alias = al := by
  intro acts
  induction acts with
  | nil =>
    intro fs h f hf
    rw [deprecatedLoop] at h
    cases h
    cases hf
  | cons act rest ih =>
    intro fs h f hf
    rw [deprecatedLoop] at h
    obtain ⟨fs1, ha1, h⟩ := exceptBindOk h
    obtain ⟨fs2, hr, h⟩ := exceptBindOk h
    cases h
    rcases List.mem_append.mp hf with h1 | h2
    · exact deprecatedAction_ids haid hal ha1 f h1
    · exact ih fs2 hr f h2

theorem check_deprecated_patterns_ids {a : Val} {aid al : String}
    (haid : pyAutoId a = .ok aid) (hal : pyAutoAlias a = .ok al)
    {fs : List ReviewFinding} (h : check_deprecated_patterns a = .ok fs) :
    ∀ f ∈ fs, f.automation_id = aid ∧ f.automation_alias = al := by
  rw [check_deprecated_patterns] at h
  obtain ⟨acts, hg, h⟩ := exceptBindOk h
  exact deprecatedLoop_ids haid hal acts fs h

theorem dictGet_dictSet_ne (d : List (String × Val)) (k : String) (v : Val)
    (k2 : String) (hne : k2 ≠ k) :
    dictGet (dictSet d k v) k2 = dictGet d k2 := by
  have hne2 : ¬ k = k2 := fun hh => hne hh.symm
  induction d with
  | nil => simp [dictSet, dictGet, hne2]
  | cons e rest ih =>
    obtain ⟨k0, w⟩ := e
    by_cases h0 : k0 = k
    · subst h0
      have hne0 : ¬ k0 = k2 := hne2
      simp [dictSet, dictGet, hne0]
    · simp [dictSet, dictGet, h0, ih]

theorem check_security_concerns_preserves {ad : List (String × Val)}
    {fs : List ReviewFinding} {a2 : Val}
    (h : check_security_concerns (Val.vdict ad) = .ok (fs, a2)) :
    ∃ ad2, a2 = Val.vdict ad2 ∧ dictGet ad2 "id" = dictGet ad "id" ∧
      dictGet ad2 "alias" = dictGet ad "alias" := by
  have heq : check_security_concerns (Val.vdict ad) =
      (get_condition_list (Val.vdict ad)) >>= (fun cs =>
        match rawField ad "action" "actions" with
        | Val.vdict actd =>
          (securityAction cs.isEmpty (Val.vdict ad) actd) >>= (fun p =>
            pure (p.1, Val.vdict
              (match (if pyTruthy ((dictGet ad "action").getD Val.vnull) = true
                  then some "action"
                  else if pyTruthy ((dictGet ad "actions").getD Val.vnull) = true
                  then some "actions" else none) with
               | some k => dictSet ad k (Val.vdict p.2)
               | none => ad)))
        | Val.vlist l =>
          (securityList cs.isEmpty (Val.vdict ad) l) >>= (fun p =>
            pure (p.1, Val.vdict
              (match (if pyTruthy ((dictGet ad "action").getD Val.vnull) = true
                  then some "action"
                  else if pyTruthy ((dictGet ad "actions").getD Val.vnull) = true
                  then some "actions" else none) with
               | some k => dictSet ad k (Val.vlist p.2)
               | none => ad)))
        | _ => pure ([], Val.vdict ad)) := rfl
  rw [heq] at h
  obtain ⟨cs, hcs, h⟩ := exceptBindOk h
  rcases hrf : rawField ad "action" "actions" with _ | b | n | t | li | actd <;>
    rw [hrf] at h
  · cases h
    exact ⟨ad, rfl, rfl, rfl⟩
  · cases h
    exact ⟨ad, rfl, rfl, rfl⟩
  · cases h
    exact ⟨ad, rfl, rfl, rfl⟩
  · cases h
    exact ⟨ad, rfl, rfl, rfl⟩
  · obtain ⟨p, hl, h⟩ := exceptBindOk h
    cases h
    by_cases h1 : pyTruthy ((dictGet ad "action").getD Val.vnull) = true
    · refine ⟨_, rfl, ?_, ?_⟩ <;> simp [h1, dictGet_dictSet_ne]
    · by_cases h2 : pyTruthy ((dictGet ad "actions").getD Val.vnull) = true
      · refine ⟨_, rfl, ?_, ?_⟩ <;> simp [h1, h2, dictGet_dictSet_ne]
      · refine ⟨_, rfl, ?_, ?_⟩ <;> simp [h1, h2]
  · obtain ⟨p, ha2, h⟩ := exceptBindOk h
    cases h
    by_cases h1 : pyTruthy ((dictGet ad "action").getD Val.vnull) = true
    · refine ⟨_, rfl, ?_, ?_⟩ <;> simp [h1, dictGet_dictSet_ne]
    · by_cases h2 : pyTruthy ((dictGet ad "actions").getD Val.vnull) = true
      · refine ⟨_, rfl, ?_, ?_⟩ <;> simp [h1, h2, dictGet_dictSet_ne]
      · refine ⟨_, rfl, ?_, ?_⟩ <;> simp [h1, h2]

theorem run_all_rules_unknown_ids {ad : List (String × Val)}
    {fs : List ReviewFinding} {a' : Val}
    (hid : dictGet ad "id" = none) (han : dictGet ad "alias" = none)
    (h : run_all_rules (Val.vdict ad) = .ok (fs, a')) :
    ∀ f ∈ fs, f.automation_id = "unknown" ∧
      f.automation_alias = "Unnamed automation" := by
  have haid : pyAutoId (Val.vdict ad) = .ok "unknown" := by
    simp [pyAutoId, hid, asPyStr]
  have halv : pyAutoAlias (Val.vdict ad) = .ok "Unnamed automation" := by
    simp [pyAutoAlias, han, asPyStr]
  rw [run_all_rules] at h
  obtain ⟨f1, h1, h⟩ := exceptBindOk h
  obtain ⟨f2, h2, h⟩ := exceptBindOk h
  obtain ⟨p3, h3, h⟩ := exceptBindOk h
  obtain ⟨f4, h4, h⟩ := exceptBindOk h
  cases h
  obtain ⟨ad2, hp2eq, hpid, hpal⟩ := check_security_concerns_preserves h3
  have haid2 : pyAutoId p3.2 = .ok "unknown" := by
    rw [hp2eq]
    simp [pyAutoId, asPyStr, hpid, hid]
  have halv2 : pyAutoAlias p3.2 = .ok "Unnamed automation" := by
    rw [hp2eq]
    simp [pyAutoAlias, asPyStr, hpal, han]
  intro f hf
  rcases List.mem_append.mp hf with hin | h4m
  · rcases List.mem_append.mp hin with hin2 | h3m
    · rcases List.mem_append.mp hin2 with h1m | h2m
      · exact check_trigger_efficiency_ids haid halv h1 f h1m
      · exact check_missing_guards_ids haid halv h2 f h2m
    · exact check_security_concerns_ids haid halv h3 f h3m
  · exact check_deprecated_patterns_ids haid2 halv2 h4 f h4m

/-- Claim C10 as amended: findings from an automation with no `id` key
(and no `alias` key) carry `automation_id = "unknown"` and
`automation_alias = "Unnamed automation"`, never the empty string; and
`classify_findings` resolves no originating automation record for them
*provided* no supplied automation has the literal (truthy) id "unknown"
in the lookup map. -/
theorem unknown_id_findings_and_classify
    {ad : List (String × Val)} {fs : List ReviewFinding} {a' : Val}
    (hid : dictGet ad "id" = none) (han : dictGet ad "alias" = none)
    (hrun : run_all_rules (.vdict ad) = .ok (fs, a'))
    {autos : List Val} {m : List (Val × Val)}
    (hmap : buildAutoMap autos [] = .ok m)
    (hunk : mapGetStr m "unknown" = none) :
    (∀ f ∈ fs, f.automation_id = "unknown" ∧
      f.automation_alias = "Unnamed automation" ∧ f.automation_id ≠ "") ∧
    classify_findings fs (some autos) = fs.mapM (fun f => classify f none) := by
  have hids := run_all_rules_unknown_ids hid han hrun
  refine ⟨fun f hf => ⟨(hids f hf).1, (hids f hf).2,
    by rw [(hids f hf).1]; decide⟩, ?_⟩
  rw [classify_findings]
  cases autos with
  | nil =>
    rw [buildAutoMap] at hmap
    cases hmap
    simp only [List.isEmpty_nil, if_true, Except.bind, bind, pure]
    exact mapMCongrMem fs _ _ (fun f hf => rfl)
  | cons a0 rest =>
    have hne : (a0 :: rest).isEmpty = false := rfl
    simp only [hne, Bool.false_eq_true, if_false, hmap, Except.bind, bind]
    exact mapMCongrMem fs _ _ (fun f hf => by rw [(hids f hf).1, hunk])

theorem unknown_id_findings_and_classify_witness :
    dictGet [("trigger", Val.vdict [("platform", Val.vstr "state")])] "id" =
      none ∧
    run_all_rules c10Auto = .ok ([c10Finding], c10Auto) ∧
    ((∀ f ∈ [c10Finding], f.automation_id = "unknown" ∧
        f.automation_alias = "Unnamed automation" ∧ f.automation_id ≠ "") ∧
      classify_findings [c10Finding] (some [.vdict [("id", .vstr "a1")]]) =
        [c10Finding].mapM (fun f => classify f none)) :=
  ⟨rfl, by rfl,
   @unknown_id_findings_and_classify
     [("trigger", Val.vdict [("platform", Val.vstr "state")])]
     [c10Finding] c10Auto rfl rfl (by rfl)
     [.vdict [("id", .vstr "a1")]]
     [(Val.vstr "a1", Val.vdict [("id", Val.vstr "a1")])]
     (by rfl) (by rfl)⟩
